import Mathlib

/-! CyberSpace: URL scanner and e-mail breach checker

A shallow embedding of `backend/services/urlScanner.js` and of
`backend/services/emailBreachChecker.js`, followed by the properties of the
risk scoring engine, of the URL scan and of the e-mail check.

Conventions of the embedding.

* JavaScript strings are Lean `String`s; where the source inspects characters
  (regular expressions, `includes`, `endsWith`, `split`) the model works on the
  character list of the string.
* Scores are sums of non-negative integer constants, far below `2^53`, so they
  are natural numbers.
* A thrown `Error` is the `Except.error` of its message.
* Code that is not part of the repository (the WHATWG `URL` parser, the
  `tldjs` library, the DNS resolver and the HTTP clients) is a parameter.
* `scanId`, `timestamp` and `scanDuration` of a scan result depend on the
  clock and on `Math.random`; the model leaves these three fields out.
-/

namespace CyberSpace

/-! ## Findings -/

/-- A threat or warning record `{ type, severity, description, reason }`. -/
structure Finding where
  type : String
  severity : String
  description : String
  reason : String
deriving DecidableEq, Repr

/-! ## `calculateRiskScore` (urlScanner.js, lines 623-656) -/

/-- Body of `threats.forEach(threat => ...)`: the `switch` on the severity
followed by the three type bonuses. -/
def threatStep (score : Nat) (threat : Finding) : Nat :=
  let score :=
    if threat.severity = "critical" then score + 40
    else if threat.severity = "high" then score + 25
    else if threat.severity = "medium" then score + 15
    else if threat.severity = "low" then score + 8
    else score
  let score := if threat.type = "lookalike_domain" then score + 10 else score
  let score := if threat.type = "raw_ip_address" then score + 8 else score
  let score := if threat.type = "punycode_domain" then score + 8 else score
  score

/-- Body of `warnings.forEach(warning => ...)`. -/
def warningStep (score : Nat) (warning : Finding) : Nat :=
  let score :=
    if warning.severity = "high" then score + 12
    else if warning.severity = "medium" then score + 8
    else if warning.severity = "low" then score + 3
    else score
  let score := if warning.type = "suspicious_tld" then score + 5 else score
  let score := if warning.type = "random_elements" then score + 3 else score
  let score := if warning.type = "suspicious_subdomain" then score + 3 else score
  score

/-- The accumulator `score` after both `forEach` loops, before the cap. -/
def rawRiskScore (threats warnings : List Finding) : Nat :=
  warnings.foldl warningStep (threats.foldl threatStep 0)

/-- `calculateRiskScore(threats, warnings)`: `Math.min(score, 100)`. -/
def calculateRiskScore (threats warnings : List Finding) : Nat :=
  min (rawRiskScore threats warnings) 100

/-! ## `determineRiskLevel` (urlScanner.js, lines 661-667) -/

/-- `determineRiskLevel(score)`. -/
def determineRiskLevel (score : Int) : String :=
  if score ≥ 50 then "critical"
  else if score ≥ 30 then "high"
  else if score ≥ 15 then "medium"
  else if score ≥ 5 then "low"
  else "safe"

/-! ## The scoring tables as the specification words them -/

/-- Base amount of a threat by severity: critical 40, high 25, medium 15,
low 8, anything else 0. -/
def threatBase (severity : String) : Nat :=
  if severity = "critical" then 40
  else if severity = "high" then 25
  else if severity = "medium" then 15
  else if severity = "low" then 8
  else 0

/-- Base amount of a warning by severity: high 12, medium 8, low 3, anything
else 0. -/
def warnBase (severity : String) : Nat :=
  if severity = "high" then 12
  else if severity = "medium" then 8
  else if severity = "low" then 3
  else 0

/-- Per-type bonus of a threat: `lookalike_domain` 10, `raw_ip_address` 8,
`punycode_domain` 8, anything else 0. -/
def threatBonus (type : String) : Nat :=
  if type = "lookalike_domain" then 10
  else if type = "raw_ip_address" then 8
  else if type = "punycode_domain" then 8
  else 0

/-- Per-type bonus of a warning: `suspicious_tld` 5, `random_elements` 3,
`suspicious_subdomain` 3, anything else 0. -/
def warnBonus (type : String) : Nat :=
  if type = "suspicious_tld" then 5
  else if type = "random_elements" then 3
  else if type = "suspicious_subdomain" then 3
  else 0

/-- The score as the specification states it: the capped sum of the
contributions of every threat and every warning. -/
def specRiskScore (threats warnings : List Finding) : Nat :=
  min 100
    ((threats.map fun t => threatBase t.severity + threatBonus t.type).sum
      + (warnings.map fun w => warnBase w.severity + warnBonus w.type).sum)

/-- Number of threats whose severity is `critical`. -/
def criticalCount (threats : List Finding) : Nat :=
  (threats.filter fun t => t.severity = "critical").length

/-! ## JavaScript string operations -/

/-- `s.includes(sub)`: `sub` occurs in `s` as a contiguous substring. -/
def includes (s sub : String) : Bool :=
  s.toList.tails.any fun t => sub.toList.isPrefixOf t

/-- `s.startsWith(pre)`. -/
def startsWith (s pre : String) : Bool :=
  pre.toList.isPrefixOf s.toList

/-- `s.endsWith(suf)`. -/
def endsWith (s suf : String) : Bool :=
  suf.toList.isSuffixOf s.toList

/-- `s.toLowerCase()`. The strings it is applied to (host name and path of a
parsed URL) are ASCII, where JavaScript and `Char.toLower` agree. -/
def toLowerCase (s : String) : String :=
  String.mk (s.toList.map Char.toLower)

/-- Truthiness of a value that is a string or `null`: neither `null` nor the
empty string. -/
def truthy : Option String → Bool
  | none => false
  | some s => s != ""

/-! ## The regular expressions of the source

Every pattern of `urlScanner.js` is a sequence of quantified character
classes, possibly anchored with `^` and `$`; there is no alternation, group
or back-reference. `test` asks whether a match exists, so the order in which
a backtracking engine tries the repetitions does not matter. -/

/-- A quantified character class `X{min,max}`; `max = none` is unbounded, so
`X+` is `⟨X, 1, none⟩` and a single `X` is `⟨X, 1, some 1⟩`. -/
structure Atom where
  cls : Char → Bool
  min : Nat
  max : Option Nat

/-- A pattern: `^`?, a sequence of atoms, `$`?. -/
structure Pattern where
  anchoredStart : Bool
  atoms : List Atom
  anchoredEnd : Bool

/-- `k` repetitions are allowed by the quantifier of `a`. -/
def Atom.allows (a : Atom) (k : Nat) : Bool :=
  decide (a.min ≤ k) &&
    match a.max with
    | none => true
    | some m => decide (k ≤ m)

/-- The atoms match a prefix of `s` (all of `s` when `anchoredEnd`). An atom
consumes `k` characters of its class, `k` within its quantifier and at most
the length of the run of such characters `s` starts with. -/
def matchHere (anchoredEnd : Bool) : List Atom → List Char → Bool
  | [], s => !anchoredEnd || s.isEmpty
  | a :: rest, s =>
      (List.range ((s.takeWhile a.cls).length + 1)).any fun k =>
        a.allows k && matchHere anchoredEnd rest (s.drop k)

/-- `pattern.test(s)`. -/
def Pattern.test (p : Pattern) (s : String) : Bool :=
  if p.anchoredStart then matchHere p.anchoredEnd p.atoms s.toList
  else s.toList.tails.any (matchHere p.anchoredEnd p.atoms)

/-- `[a-z]`. -/
def lower (c : Char) : Bool := decide ('a' ≤ c) && decide (c ≤ 'z')

/-- `\d` and `[0-9]`. -/
def digit (c : Char) : Bool := decide ('0' ≤ c) && decide (c ≤ '9')

/-- A literal character. -/
def lit (x : Char) : Atom := ⟨fun c => c == x, 1, some 1⟩

/-- A literal letter under the `i` flag. -/
def litNoCase (x : Char) : Atom := ⟨fun c => c == x || c == x.toUpper, 1, some 1⟩

/-- `X+`. -/
def plus (cls : Char → Bool) : Atom := ⟨cls, 1, none⟩

/-- `X{n,}`. -/
def atLeast (n : Nat) (cls : Char → Bool) : Atom := ⟨cls, n, none⟩

/-- `X{m,n}`. -/
def between (m n : Nat) (cls : Char → Bool) : Atom := ⟨cls, m, some n⟩

/-- An unanchored pattern. -/
def unanchored (atoms : List Atom) : Pattern := ⟨false, atoms, false⟩

/-- A pattern anchored at both ends, `^...$`. -/
def anchored (atoms : List Atom) : Pattern := ⟨true, atoms, true⟩

/-! ## Utility functions (urlScanner.js, lines 672-684) -/

/-- The result of `new URL(str)`, as far as the scanner reads it. -/
structure URL where
  href : String
  protocol : String
  hostname : String
  pathname : String
deriving DecidableEq, Repr

/-- `normalizeUrl(input)`: prefix `https://` unless the input starts with
`http://` or `https://` (`/^https?:\/\//i`), parse, return `href`; `null`
when the parser throws. `parseURL` is `new URL`, `none` when it throws. -/
def normalizeUrl (parseURL : String → Option URL) (input : String) : Option String :=
  let schemePattern : Pattern :=
    ⟨true, [litNoCase 'h', litNoCase 't', litNoCase 't', litNoCase 'p',
      between 0 1 (fun c => c == 's' || c == 'S'), lit ':', lit '/', lit '/'], false⟩
  let str := if schemePattern.test input then input else "https://" ++ input
  match parseURL str with
  | some u => some u.href
  | none => none

/-- `isIpAddress(host)`: `/^\d+\.\d+\.\d+\.\d+$/`. -/
def isIpAddress (host : String) : Bool :=
  (anchored [plus digit, lit '.', plus digit, lit '.', plus digit, lit '.', plus digit]).test host

/-! ## `performBasicAnalysis` (urlScanner.js, lines 138-396) -/

/-- What `performBasicAnalysis` returns. `whitelisted` is the truthiness of
`analysis?.whitelisted`, which `scanUrlComprehensive` reads: the two whitelist
returns carry `analysis: { whitelisted: true }`, the final return has no
`analysis` property. -/
structure BasicAnalysis where
  threats : List Finding
  warnings : List Finding
  whitelisted : Bool
deriving DecidableEq, Repr

def legitimateDomains : List String :=
  ["google.com", "gmail.com", "drive.google.com",
   "facebook.com", "instagram.com", "twitter.com",
   "amazon.com", "netflix.com", "spotify.com",
   "apple.com", "microsoft.com", "github.com",
   "wikipedia.org", "yahoo.com", "bing.com",
   "paypal.com", "zoom.us", "slack.com"]

def trustedSubdomains : List String :=
  ["www", "mail", "docs", "drive", "maps", "translate"]

def suspiciousTlds : List String :=
  ["zip", "mov", "country", "gq", "ml", "cf", "tk", "ga", "xyz", "top", "club", "online",
   "site", "click", "link", "bid", "loan", "work", "tech", "app", "dev", "io", "co", "me",
   "tv", "cc", "ws", "info", "biz"]

def knownBrands : List String :=
  ["allegro", "paypal", "google", "apple", "amazon", "bank", "facebook",
   "microsoft", "netflix", "spotify", "instagram", "twitter", "linkedin",
   "ebay", "walmart", "target", "chase", "wellsfargo", "bankofamerica",
   "citibank", "usbank", "pnc", "tdbank", "capitalone", "americanexpress"]

def officialDomains : List (String × String) :=
  [("allegro", "allegro.pl"), ("paypal", "paypal.com"), ("google", "google.com"),
   ("apple", "apple.com"), ("amazon", "amazon.com"), ("facebook", "facebook.com"),
   ("microsoft", "microsoft.com"), ("netflix", "netflix.com"), ("spotify", "spotify.com"),
   ("instagram", "instagram.com"), ("twitter", "twitter.com"), ("linkedin", "linkedin.com"),
   ("ebay", "ebay.com"), ("walmart", "walmart.com"), ("target", "target.com"),
   ("chase", "chase.com"), ("wellsfargo", "wellsfargo.com"),
   ("bankofamerica", "bankofamerica.com"), ("citibank", "citibank.com"),
   ("usbank", "usbank.com"), ("pnc", "pnc.com"), ("tdbank", "tdbank.com"),
   ("capitalone", "capitalone.com"), ("americanexpress", "americanexpress.com")]

def suspiciousSubdomains : List String :=
  ["login", "secure", "verify", "update", "account", "bank"]

def phishingPatterns : List Pattern :=
  [unanchored [plus lower, atLeast 3 digit],
   unanchored [atLeast 3 digit, plus lower, atLeast 3 digit],
   unanchored [plus lower, lit '-', plus lower, lit '-', plus lower],
   unanchored [atLeast 2 lower, lit '.', atLeast 2 lower, lit '.', atLeast 2 lower],
   unanchored [plus lower, atLeast 3 digit, plus lower],
   unanchored [atLeast 10 lower],
   unanchored [atLeast 6 digit]]

def newDomainPatterns : List Pattern :=
  [anchored [between 1 3 lower, between 2 4 digit, between 1 3 lower],
   anchored [between 2 4 digit, between 1 3 lower, between 2 4 digit],
   anchored [between 1 3 lower, lit '-', between 1 3 lower, lit '-', between 2 4 digit]]

def suspiciousPathKeywords : List String :=
  ["login", "verify", "update", "bank", "wallet", "free", "gift", "bonus",
   "secure", "account", "password", "credit", "debit", "social", "security"]

def shortenerDomains : List String :=
  ["bit.ly", "tinyurl.com", "goo.gl", "t.co", "is.gd", "v.gd",
   "shorturl.at", "rb.gy", "cutt.ly", "short.io"]

/-- The two whitelist tests at the head of `performBasicAnalysis`: the host
name is in `legitimateDomains`, or the registrable domain is and the
subdomain is in `trustedSubdomains`. -/
def isWhitelisted (hostname : String) (domain subdomain : Option String) : Bool :=
  legitimateDomains.contains hostname ||
    (match domain with
     | some d => truthy (some d) && legitimateDomains.contains d
     | none => false) &&
    (match subdomain with
     | some sub => truthy (some sub) && trustedSubdomains.contains sub
     | none => false)

/-- The brand the `for (const brand of knownBrands)` loop stops at: the first
brand the host name contains that has an official domain the host name does
not end with. -/
def lookalikeBrand (hostname : String) : Option String :=
  knownBrands.find? fun brand =>
    includes hostname brand &&
      match officialDomains.lookup brand with
      | some officialDomain => truthy (some officialDomain) && !endsWith hostname officialDomain
      | none => false

/-- The number of hyphens in the host name: the length of its match against
the global pattern for `-` (`0` when there is no match). -/
def hyphenCount (hostname : String) : Nat :=
  hostname.toList.count '-'

/-- `hostname.split('.')`, as lists of characters. -/
def splitDots : List Char → List (List Char)
  | [] => [[]]
  | c :: cs =>
      if c = '.' then [] :: splitDots cs
      else
        match splitDots cs with
        | [] => [[c]]
        | part :: parts => (c :: part) :: parts

/-- `hostname.split('.')[0]`. -/
def firstLabel (hostname : String) : String :=
  match splitDots hostname.toList with
  | [] => ""
  | part :: _ => String.mk part

/-- The threats of the non-whitelisted path, in the order they are pushed. -/
def basicThreats (protocol hostname : String) : List Finding :=
  (if isIpAddress hostname then
    [⟨"raw_ip_address", "high", "URL uses raw IP address instead of domain name",
      "Phishers often use IP addresses to bypass domain-based security measures"⟩] else []) ++
  (if includes hostname "xn--" then
    [⟨"punycode_domain", "high", "Punycode domain detected",
      "Punycode can be used to create visually similar domains for phishing"⟩] else []) ++
  (if hostname.length > 63 then
    [⟨"excessive_domain_length", "medium", "Domain name is excessively long",
      "Very long domains are often used to hide malicious intent"⟩] else []) ++
  (match lookalikeBrand hostname with
   | some brand =>
      [⟨"lookalike_domain", "high",
        "Domain contains brand name \"" ++ brand ++ "\" but is not the official domain",
        "Possible phishing/typosquatting attempt"⟩]
   | none => []) ++
  (if protocol = "http:" then
    [⟨"no_ssl_certificate", "high", "No SSL certificate (HTTPS)",
      "URL uses HTTP instead of HTTPS - vulnerable to man-in-the-middle attacks"⟩] else [])

/-- The warnings of the non-whitelisted path, in the order they are pushed.
`tld` is `tldjs.getPublicSuffix(hostname)`. -/
def basicWarnings (tld : Option String) (pathname hostname : String)
    (subdomain : Option String) : List Finding :=
  (match tld with
   | some t =>
      if suspiciousTlds.contains t then
        [⟨"suspicious_tld", "medium", "Suspicious top-level domain: ." ++ t,
          "This TLD is commonly associated with malicious sites"⟩] else []
   | none => []) ++
  (if hyphenCount hostname > 2 then
    [⟨"excessive_hyphens", "medium",
      "Domain contains " ++ toString (hyphenCount hostname) ++ " hyphens",
      "Many hyphens can indicate phishing domains"⟩] else []) ++
  (if (unanchored [atLeast 3 digit]).test hostname || (unanchored [atLeast 8 lower]).test hostname then
    [⟨"random_elements", "medium", "Domain contains random numbers or long strings",
      "Random elements can indicate generated phishing domains"⟩] else []) ++
  (match subdomain with
   | some sub =>
      if truthy (some sub) && decide (sub.length > 0) &&
          suspiciousSubdomains.any (fun s => includes sub s) then
        [⟨"suspicious_subdomain", "medium", "Suspicious subdomain: " ++ sub,
          "Subdomain contains suspicious keywords"⟩] else []
   | none => []) ++
  (if phishingPatterns.any (fun pattern => pattern.test hostname) then
    [⟨"phishing_pattern", "medium", "Domain matches common phishing patterns",
      "Domain structure follows known phishing domain generation patterns"⟩] else []) ++
  (if newDomainPatterns.any (fun pattern => pattern.test (firstLabel hostname)) then
    [⟨"new_domain_pattern", "medium", "Domain follows newly registered domain patterns",
      "Domain structure suggests it may be recently registered for malicious purposes"⟩] else []) ++
  (if (splitDots hostname.toList).length > 3 then
    [⟨"excessive_domain_parts", "medium",
      "Domain has " ++ toString (splitDots hostname.toList).length ++ " parts",
      "Many domain parts can indicate phishing attempts"⟩] else []) ++
  (let path := toLowerCase pathname
   let foundKeywords := suspiciousPathKeywords.filter fun keyword => includes path keyword
   if foundKeywords.length > 0 then
    [⟨"suspicious_path_keywords", "medium",
      "Suspicious keywords found in URL path: " ++ ", ".intercalate foundKeywords,
      "These keywords are commonly used in phishing attempts"⟩] else []) ++
  (if shortenerDomains.contains hostname then
    [⟨"url_shortener", "medium", "URL shortening service detected",
      "Shortened URLs can hide the true destination"⟩] else [])

/-- `performBasicAnalysis(urlObj, hostname, domain, subdomain)`.
`getPublicSuffix` is `tldjs.getPublicSuffix`. -/
def performBasicAnalysis (getPublicSuffix : String → Option String) (urlObj : URL)
    (hostname : String) (domain subdomain : Option String) : BasicAnalysis :=
  if isWhitelisted hostname domain subdomain then
    { threats := [], warnings := [], whitelisted := true }
  else
    { threats := basicThreats urlObj.protocol hostname
      warnings := basicWarnings (getPublicSuffix hostname) urlObj.pathname hostname subdomain
      whitelisted := false }

/-! ## `performScreenshotAnalysis` (urlScanner.js, lines 584-618) -/

/-- The `{ threats, warnings }` part of what a checker returns; the other
properties of the returned object are diagnostics the scanner only stores. -/
structure CheckerResult where
  threats : List Finding
  warnings : List Finding
deriving DecidableEq, Repr

/-- `performScreenshotAnalysis(url)`. The `try` holds only
`url.startsWith`, which does not throw on a string, so the `catch` that
would push `ssl_check_failed` is never entered. -/
def performScreenshotAnalysis (url : String) : CheckerResult :=
  { threats :=
      if !startsWith url "https://" then
        [⟨"no_ssl_certificate", "high", "No SSL certificate (HTTPS)",
          "URL uses HTTP instead of HTTPS - vulnerable to man-in-the-middle attacks"⟩]
      else []
    warnings :=
      [⟨"screenshot_disabled", "low", "Screenshot analysis disabled",
        "Puppeteer not installed - install separately with: npm install puppeteer"⟩] }

/-! ## `scanUrlComprehensive` (urlScanner.js, lines 21-133) -/

/-- Everything outside `urlScanner.js` that a scan consults: the `URL`
parser, the three `tldjs` functions, and what the checkers that talk to the
network (DNS, domain reputation, threat intelligence, page content) resolve
to for given arguments. -/
structure World where
  parseURL : String → Option URL
  getDomain : String → Option String
  getSubdomain : String → Option String
  getPublicSuffix : String → Option String
  performDnsAnalysis : String → CheckerResult
  getDomainReputation : String → CheckerResult
  getThreatIntelligence : String → String → CheckerResult
  performContentAnalysis : String → CheckerResult

/-- The `options` argument with its defaults. -/
structure Options where
  includeContent : Bool := false
  includeScreenshot : Bool := false
  includeThreatIntel : Bool := true
deriving DecidableEq, Repr

/-- The `details` property of a scan result: one entry per checker that
ran. -/
structure Details where
  basicAnalysis : BasicAnalysis
  dnsAnalysis : CheckerResult
  reputationAnalysis : Option CheckerResult
  threatIntelligence : Option CheckerResult
  contentAnalysis : Option CheckerResult
  screenshotAnalysis : Option CheckerResult
deriving DecidableEq, Repr

/-- The object `scanUrlComprehensive` returns. -/
structure ScanResult where
  url : String
  hostname : String
  domain : String
  subdomain : Option String
  riskScore : Nat
  riskLevel : String
  threats : List Finding
  warnings : List Finding
  safe : Bool
  details : Details
deriving DecidableEq, Repr

/-- The findings a checker that runs only under an option contributes. -/
def optionalThreats : Option CheckerResult → List Finding
  | some r => r.threats
  | none => []

/-- The warnings a checker that runs only under an option contributes. -/
def optionalWarnings : Option CheckerResult → List Finding
  | some r => r.warnings
  | none => []

/-- The body of `scanUrlComprehensive` after the URL has been normalised and
parsed: steps 1 to 6, the score, the level, and the whitelist test. -/
def scanParsed (w : World) (options : Options) (normalizedUrl : String) (urlObj : URL) :
    ScanResult :=
  let hostname := toLowerCase urlObj.hostname
  let domain := w.getDomain hostname
  let subdomain := w.getSubdomain hostname
  let isIp := isIpAddress hostname
  let validDomain :=
    match domain with
    | some d => if truthy (some d) && !isIp then d else hostname
    | none => hostname
  -- 1. basic URL analysis
  let basicAnalysis := performBasicAnalysis w.getPublicSuffix urlObj hostname domain subdomain
  -- 2. DNS analysis
  let dnsAnalysis := w.performDnsAnalysis hostname
  -- 3. domain reputation
  let reputationAnalysis :=
    if options.includeThreatIntel then some (w.getDomainReputation validDomain) else none
  -- 4. threat intelligence
  let threatIntel :=
    if options.includeThreatIntel then some (w.getThreatIntelligence normalizedUrl hostname)
    else none
  -- 5. content analysis
  let contentAnalysis :=
    if options.includeContent then some (w.performContentAnalysis normalizedUrl) else none
  -- 6. screenshot analysis
  let screenshotAnalysis :=
    if options.includeScreenshot then some (performScreenshotAnalysis normalizedUrl) else none
  let threats :=
    basicAnalysis.threats ++ dnsAnalysis.threats ++ optionalThreats reputationAnalysis ++
      optionalThreats threatIntel ++ optionalThreats contentAnalysis ++
      optionalThreats screenshotAnalysis
  let warnings :=
    basicAnalysis.warnings ++ dnsAnalysis.warnings ++ optionalWarnings reputationAnalysis ++
      optionalWarnings threatIntel ++ optionalWarnings contentAnalysis ++
      optionalWarnings screenshotAnalysis
  let riskScore := calculateRiskScore threats warnings
  let riskLevel := determineRiskLevel riskScore
  let isWhitelisted := basicAnalysis.whitelisted
  { url := normalizedUrl
    hostname := hostname
    domain := validDomain
    subdomain := subdomain
    riskScore := if isWhitelisted then 0 else riskScore
    riskLevel := if isWhitelisted then "safe" else riskLevel
    threats := threats
    warnings := warnings
    safe := if isWhitelisted then true else riskLevel == "safe" || riskLevel == "low"
    details :=
      { basicAnalysis := basicAnalysis
        dnsAnalysis := dnsAnalysis
        reputationAnalysis := reputationAnalysis
        threatIntelligence := threatIntel
        contentAnalysis := contentAnalysis
        screenshotAnalysis := screenshotAnalysis } }

/-- `scanUrlComprehensive(url, options)`: the result object, or the message
of the error thrown. -/
def scanUrlComprehensive (w : World) (url : String) (options : Options) :
    Except String ScanResult :=
  match normalizeUrl w.parseURL url with
  | none => .error "Invalid URL format"
  | some normalizedUrl =>
      if normalizedUrl = "" then .error "Invalid URL format"
      else
        match w.parseURL normalizedUrl with
        | none => .error "Invalid URL"
        | some urlObj => .ok (scanParsed w options normalizedUrl urlObj)

/-! ## `removeDuplicateBreaches` (emailBreachChecker.js, lines 341-351) -/

/-- A breach record. The records built from the BreachDirectory response
have `source`, `name`, `domain`, `breachDate`, `description`, `dataClasses`
and `isVerified`; the synthetic record of the reputation check also has the
four flags, which are absent (`none`) otherwise. -/
structure Breach where
  source : String
  name : String
  domain : String
  breachDate : String
  description : String
  dataClasses : List String
  isVerified : Bool
  isFabricated : Option Bool
  isSensitive : Option Bool
  isRetired : Option Bool
  isSpamList : Option Bool
deriving DecidableEq, Repr

/-- The key of a record: the template string of `name`, a hyphen and
`domain`. -/
def breachKey (breach : Breach) : String :=
  breach.name ++ "-" ++ breach.domain

/-- The `filter` callback run over the rest of the list with the set `seen`
as it stands. -/
def removeDuplicateBreachesFrom (seen : List String) : List Breach → List Breach
  | [] => []
  | breach :: rest =>
      if seen.contains (breachKey breach) then removeDuplicateBreachesFrom seen rest
      else breach :: removeDuplicateBreachesFrom (breachKey breach :: seen) rest

/-- `removeDuplicateBreaches(breaches)`. -/
def removeDuplicateBreaches (breaches : List Breach) : List Breach :=
  removeDuplicateBreachesFrom [] breaches

/-! ## `calculateBreachRiskScore`, `determineBreachRiskLevel` (emailBreachChecker.js, lines 356-388) -/

/-- The calendar fields of a JavaScript `Date` in local time. -/
structure CalendarDate where
  year : Int
  month : Nat
  day : Nat
deriving DecidableEq, Repr

/-- Truthiness of a flag that may be absent. -/
def flagSet : Option Bool → Bool
  | some b => b
  | none => false

/-- Body of `breaches.forEach(breach => ...)`. `parseDate` is `new Date(str)`,
`none` when the date is invalid: `getFullYear()` is then `NaN` and the
comparison with 2 is false. `today` is `new Date()`. -/
def breachStep (parseDate : String → Option CalendarDate) (today : CalendarDate)
    (score : Nat) (breach : Breach) : Nat :=
  let score := score + 20
  let score := if flagSet breach.isSensitive then score + 15 else score
  let score := if breach.isVerified then score + 10 else score
  let score := if breach.dataClasses.length > 3 then score + 10 else score
  let score :=
    if breach.breachDate != "" then
      match parseDate breach.breachDate with
      | some breachDay => if today.year - breachDay.year ≤ 2 then score + 10 else score
      | none => score
    else score
  score

/-- `calculateBreachRiskScore(breaches)`, with the date parser and the
current date it reads. -/
def calculateBreachRiskScore (parseDate : String → Option CalendarDate) (today : CalendarDate)
    (breaches : List Breach) : Nat :=
  min (breaches.foldl (breachStep parseDate today) 0) 100

/-- `determineBreachRiskLevel(score)`. -/
def determineBreachRiskLevel (score : Int) : String :=
  if score ≥ 80 then "critical"
  else if score ≥ 60 then "high"
  else if score ≥ 40 then "medium"
  else if score ≥ 20 then "low"
  else "safe"

/-! ## The breach score as the specification words it -/

/-- Calendar order: `a` is not after `b`. -/
def CalendarDate.notAfter (a b : CalendarDate) : Bool :=
  decide (a.year < b.year) ||
    (decide (a.year = b.year) &&
      (decide (a.month < b.month) || (decide (a.month = b.month) && decide (a.day ≤ b.day))))

/-- The date `breachDay` lies within the last two years before `today`: it is
not after `today`, and `today` is not after its second anniversary. -/
def withinLastTwoYears (today breachDay : CalendarDate) : Bool :=
  breachDay.notAfter today && today.notAfter { breachDay with year := breachDay.year + 2 }

/-- What one record adds, with the recency test left open: 20, plus 15 if
sensitive, plus 10 if verified, plus 10 for more than 3 data classes, plus 10
if the breach date passes `recent`. -/
def breachContribution (recent : CalendarDate → Bool)
    (parseDate : String → Option CalendarDate) (breach : Breach) : Nat :=
  20 + (if flagSet breach.isSensitive then 15 else 0) + (if breach.isVerified then 10 else 0) +
    (if breach.dataClasses.length > 3 then 10 else 0) +
    (match parseDate breach.breachDate with
     | some breachDay => if breach.breachDate != "" && recent breachDay then 10 else 0
     | none => 0)

/-- The breach score as the specification states it: the recency bonus goes
to the records whose date lies within the last two years. -/
def specBreachRiskScore (parseDate : String → Option CalendarDate) (today : CalendarDate)
    (breaches : List Breach) : Nat :=
  min 100 ((breaches.map (breachContribution (withinLastTwoYears today) parseDate)).sum)

/-- The breach score with the recency bonus by calendar year: it goes to the
records whose year is at most two less than the current year. -/
def yearBreachRiskScore (parseDate : String → Option CalendarDate) (today : CalendarDate)
    (breaches : List Breach) : Nat :=
  min 100
    ((breaches.map
      (breachContribution (fun breachDay => decide (today.year - breachDay.year ≤ 2)) parseDate)).sum)

/-! ## `isValidEmail` (emailBreachChecker.js, lines 333-336) -/

/-- The class `\s` of JavaScript regular expressions. -/
def isSpace (c : Char) : Bool :=
  (decide (9 ≤ c.toNat) && decide (c.toNat ≤ 13)) || c.toNat == 32 || c.toNat == 160 ||
    c.toNat == 5760 || (decide (8192 ≤ c.toNat) && decide (c.toNat ≤ 8202)) ||
    c.toNat == 8232 || c.toNat == 8233 || c.toNat == 8239 || c.toNat == 8287 ||
    c.toNat == 12288 || c.toNat == 65279

/-- The class `[^\s@]`. -/
def notSpaceNorAt (c : Char) : Bool := !isSpace c && c != '@'

/-- `isValidEmail(email)`: `/^[^\s@]+@[^\s@]+\.[^\s@]+$/`. -/
def isValidEmail (email : String) : Bool :=
  (anchored [plus notSpaceNorAt, lit '@', plus notSpaceNorAt, lit '.', plus notSpaceNorAt]).test
    email

/-- An address as the specification describes a well-formed one:
`local@domain` with `local` not empty, no white space and no further `@` in
either part, and `domain` of the form `x.y` with `x` and `y` not empty. -/
def WellFormedEmail (email : String) : Prop :=
  ∃ localPart domain : List Char, email.toList = localPart ++ '@' :: domain ∧
    localPart ≠ [] ∧ (∀ c ∈ localPart, isSpace c = false ∧ c ≠ '@') ∧
    (∀ c ∈ domain, isSpace c = false ∧ c ≠ '@') ∧
    ∃ x y : List Char, domain = x ++ '.' :: y ∧ x ≠ [] ∧ y ≠ []

/-! ## The e-mail checkers (emailBreachChecker.js, lines 122-328) -/

/-- One entry of `response.data.result`; a property that is absent or falsy
is `none`. -/
structure DirectoryEntry where
  line : Option String
  domain : Option String
  date : Option String
deriving DecidableEq, Repr

/-- How `axios.get` settles. `response result`: it resolved, `result` being
`response.data.result` when `response.data` and it are truthy. `failure`: it
rejected with an error of the given `message`, whose `response.status` and
`code` are present or not. A truthy `result` that cannot be mapped throws a
`TypeError` inside the `try`, which is a `failure` without status and code. -/
inductive AxiosOutcome where
  | response (result : Option (List DirectoryEntry))
  | failure (message : String) (status : Option Nat) (code : Option String)
deriving DecidableEq, Repr

/-- Everything outside `emailBreachChecker.js` that an e-mail check consults:
the environment variable `RAPIDAPI_KEY`, the outcome of the request to
BreachDirectory for an address, `String.prototype.toLowerCase`, the `Date`
parser, the current date in local time, and the current date as
`new Date().toISOString().split('T')[0]` prints it. -/
structure EmailWorld where
  rapidApiKey : Option String
  request : String → AxiosOutcome
  toLowerCase : String → String
  parseDate : String → Option CalendarDate
  today : CalendarDate
  todayIso : String

/-- What a checker resolves to: `{ breaches, warnings, riskScore }`;
`checkBreachDirectory` returns no `riskScore`. -/
structure EmailCheck where
  breaches : List Breach
  warnings : List Finding
  riskScore : Option Nat
deriving DecidableEq, Repr

/-- `value || fallback` on a string that may be absent. -/
def orElse (value : Option String) (fallback : String) : String :=
  match value with
  | some v => if v != "" then v else fallback
  | none => fallback

/-- The `catch` block of `checkBreachDirectory`: the warning built from the
error. -/
def directoryFailureWarning (message : String) (status : Option Nat) (code : Option String) :
    Finding :=
  match status with
  | some st =>
      if st = 429 then
        ⟨"rate_limit_exceeded", "medium", "BreachDirectory API temporarily unavailable",
          "Rate limit exceeded - try again later"⟩
      else if st = 401 then
        ⟨"invalid_api_key", "high", "BreachDirectory API temporarily unavailable",
          "Invalid API key"⟩
      else if st = 403 then
        ⟨"access_forbidden", "high", "BreachDirectory API temporarily unavailable",
          "API access forbidden"⟩
      else
        ⟨"api_unavailable", "low", "BreachDirectory API temporarily unavailable",
          "HTTP " ++ toString st ++ ": " ++ message⟩
  | none =>
      if code = some "ECONNABORTED" then
        ⟨"timeout", "medium", "BreachDirectory API temporarily unavailable", "Request timeout"⟩
      else
        ⟨"api_unavailable", "low", "BreachDirectory API temporarily unavailable", message⟩

/-- `checkBreachDirectory(email)`. -/
def checkBreachDirectory (w : EmailWorld) (email : String) : EmailCheck :=
  if !truthy w.rapidApiKey || w.rapidApiKey = some "your_rapidapi_key_here" ||
      w.rapidApiKey = some "demo-key" then
    { breaches := []
      warnings :=
        [⟨"api_unavailable", "low", "BreachDirectory API not configured",
          "RapidAPI key not set in environment variables"⟩]
      riskScore := none }
  else
    match w.request email with
    | .response (some result) =>
        { breaches := result.map fun breach =>
            { source := "BreachDirectory"
              name := orElse breach.line "Unknown"
              domain := orElse breach.domain "Unknown"
              breachDate := orElse breach.date "Unknown"
              description := "Data breach detected"
              dataClasses := ["email", "password"]
              isVerified := true
              isFabricated := none
              isSensitive := none
              isRetired := none
              isSpamList := none }
          warnings := []
          riskScore := none }
    | .response none => { breaches := [], warnings := [], riskScore := none }
    | .failure message status code =>
        { breaches := []
          warnings := [directoryFailureWarning message status code]
          riskScore := none }

/-- `s.split(sep)` for a one-character separator, as lists of characters. -/
def splitChar (sep : Char) : List Char → List (List Char)
  | [] => [[]]
  | c :: cs =>
      if c = sep then [] :: splitChar sep cs
      else
        match splitChar sep cs with
        | [] => [[c]]
        | part :: parts => (c :: part) :: parts

def disposableDomains : List String :=
  ["10minutemail.com", "guerrillamail.com", "mailinator.com", "tempmail.org",
   "throwaway.email", "yopmail.com", "getnada.com", "mailnesia.com",
   "temp-mail.org", "sharklasers.com", "guerrillamailblock.com", "pokemail.net",
   "spam4.me", "bccto.me", "chacuo.net", "dispostable.com", "fakeinbox.com",
   "maildrop.cc", "mailnesia.com", "mintemail.com", "mytrashmail.com",
   "nwldx.com", "sharklasers.com", "spamspot.com", "tempr.email", "trashmail.com"]

/-- `[a-z0-9]`. -/
def lowerOrDigit (c : Char) : Bool := lower c || digit c

/-- A pattern that is an alternation of plain words, such as
`admin|root|test`: some word occurs in the string. -/
def includesAny (words : List String) (s : String) : Bool :=
  words.any fun word => includes s word

/-- The table `suspiciousPatterns`: each test with its `reason`. -/
def suspiciousPatterns : List ((String → Bool) × String) :=
  [(includesAny ["admin", "root", "test", "demo", "example"],
      "Common admin/test emails are often targeted"),
   ((unanchored [atLeast 8 digit]).test, "Email contains excessive numbers (potential spam)"),
   ((unanchored [atLeast 20 lower]).test, "Email contains very long random string"),
   ((unanchored [atLeast 15 lowerOrDigit, lit '@']).test, "Email username is suspiciously long")]

/-- The table `breachPatterns`: each test with its `reason`. -/
def breachPatterns : List ((String → Bool) × String) :=
  [(includesAny ["password", "pwd", "pass"], "Email contains password-related keywords"),
   (includesAny ["login", "signin", "auth"], "Email contains authentication keywords"),
   (includesAny ["bank", "paypal", "stripe", "venmo"], "Email contains financial keywords"),
   (includesAny ["crypto", "bitcoin", "wallet"], "Email contains cryptocurrency keywords")]

def suspiciousDomains : List String :=
  ["xyz", "top", "site", "online", "web", "net", "info", "buzz", "click",
   "icu", "tk", "ml", "cf", "ga", "gq", "co", "cc", "ws", "me"]

/-- The warnings pushed and the score reached so far in
`checkEmailReputation`. -/
structure Reputation where
  warnings : List Finding
  riskScore : Nat
deriving DecidableEq, Repr

/-- Body of the two `forEach` loops over a pattern table: when the pattern
matches the lower-cased address, push the warning with the pattern's reason
and add the points. -/
def patternStep (lowered type severity description : String) (points : Nat)
    (acc : Reputation) (entry : (String → Bool) × String) : Reputation :=
  if entry.1 lowered then
    { warnings := acc.warnings ++ [⟨type, severity, description, entry.2⟩]
      riskScore := acc.riskScore + points }
  else acc

/-- `email.split('@')[1]?.toLowerCase()`. -/
def emailDomain (w : EmailWorld) (email : String) : Option String :=
  ((splitChar '@' email.toList)[1]?).map fun part => w.toLowerCase (String.mk part)

/-- The disposable-domain check: `disposableDomains.includes(domain)`, which
is false for an `undefined` domain. -/
def disposableStage (domain : Option String) (acc : Reputation) : Reputation :=
  match domain with
  | some d =>
      if disposableDomains.contains d then
        { warnings := acc.warnings ++
            [⟨"disposable_email", "medium", "Email uses disposable email service",
              "Disposable emails are often used for malicious purposes"⟩]
          riskScore := acc.riskScore + 30 }
      else acc
  | none => acc

/-- The domain-extension check: the domain is truthy and ends with a dot
followed by one of `suspiciousDomains`. -/
def extensionStage (domain : Option String) (acc : Reputation) : Reputation :=
  match domain with
  | some d =>
      if truthy (some d) && suspiciousDomains.any (fun sd => endsWith d ("." ++ sd)) then
        { warnings := acc.warnings ++
            [⟨"suspicious_domain", "medium", "Email uses suspicious domain extension",
              "New or less reputable domain extensions are often used for phishing"⟩]
          riskScore := acc.riskScore + 25 }
      else acc
  | none => acc

/-- The warnings and the score of `checkEmailReputation` before the synthetic
breach record is considered: the four checks in the order of the source. -/
def emailReputation (w : EmailWorld) (email : String) : Reputation :=
  let domain := emailDomain w email
  let acc := disposableStage domain ⟨[], 0⟩
  let acc :=
    suspiciousPatterns.foldl
      (patternStep (w.toLowerCase email) "suspicious_email_pattern" "low"
        "Email contains suspicious patterns" 10) acc
  let acc :=
    breachPatterns.foldl
      (patternStep (w.toLowerCase email) "potential_breach_target" "medium"
        "Email matches common breach target patterns" 20) acc
  extensionStage domain acc

/-- `checkEmailReputation(email)`. Nothing in its `try` throws on a string,
so the `catch` that would return `reputation_check_failed` is never
entered. -/
def checkEmailReputation (w : EmailWorld) (email : String) : EmailCheck :=
  let rep := emailReputation w email
  { breaches :=
      if rep.riskScore ≥ 50 then
        [{ source := "EmailReputation"
           name := "High Risk Email Pattern"
           domain := orElse (emailDomain w email) "Unknown"
           breachDate := w.todayIso
           description := "Email matches multiple high-risk patterns"
           dataClasses := ["email", "pattern_analysis"]
           isVerified := false
           isFabricated := some false
           isSensitive := some false
           isRetired := some false
           isSpamList := some false }]
      else []
    warnings := rep.warnings
    riskScore := some rep.riskScore }

/-! ## `checkEmailBreach` (emailBreachChecker.js, lines 28-115) -/

/-- An entry of the array `Promise.allSettled` resolves to: the value of a
fulfilled promise, or the `message` of the error a rejected one carries. -/
inductive Settled where
  | fulfilled (value : EmailCheck)
  | rejected (message : String)
deriving DecidableEq, Repr

/-- The three accumulators of `results.forEach`. -/
structure Collected where
  breachResults : List Breach
  warnings : List Finding
  reputationRiskScore : Nat
deriving DecidableEq, Repr

/-- Body of `results.forEach((result, index) => ...)`. -/
def collectStep (acc : Collected) (result : Settled) : Collected :=
  match result with
  | .fulfilled value =>
      { breachResults := acc.breachResults ++ value.breaches
        warnings := acc.warnings ++ value.warnings
        reputationRiskScore :=
          match value.riskScore with
          | some score => if score ≠ 0 then max acc.reputationRiskScore score
              else acc.reputationRiskScore
          | none => acc.reputationRiskScore }
  | .rejected message =>
      { acc with
        warnings := acc.warnings ++
          [⟨"api_failure", "low", "API check failed",
            if message != "" then message else "Unknown error"⟩] }

/-- An entry of `details.apiResults`. -/
structure ApiResult where
  api : String
  success : Bool
  data : Option EmailCheck
  error : Option String
deriving DecidableEq, Repr

/-- The object `checkEmailBreach` returns, without `checkId`, `timestamp`
and `checkDuration`, which depend on the clock and on `Math.random`. -/
structure EmailVerdict where
  email : String
  riskScore : Nat
  riskLevel : String
  totalBreaches : Nat
  breaches : List Breach
  warnings : List Finding
  safe : Bool
  apiResults : List ApiResult
deriving DecidableEq, Repr

/-- The part of `checkEmailBreach` after `Promise.allSettled`: what it builds
from the settled results. -/
def assembleEmailVerdict (w : EmailWorld) (email : String) (results : List Settled) :
    EmailVerdict :=
  let acc := results.foldl collectStep ⟨[], [], 0⟩
  let uniqueBreaches := removeDuplicateBreaches acc.breachResults
  let breachRiskScore := calculateBreachRiskScore w.parseDate w.today uniqueBreaches
  let totalRiskScore := min (breachRiskScore + acc.reputationRiskScore) 100
  let riskLevel := determineBreachRiskLevel totalRiskScore
  { email := email
    riskScore := totalRiskScore
    riskLevel := riskLevel
    totalBreaches := uniqueBreaches.length
    breaches := uniqueBreaches
    warnings := acc.warnings
    safe := riskLevel == "safe"
    apiResults :=
      (results.zip ["BreachDirectory", "EmailReputation"]).map fun entry =>
        match entry.1 with
        | .fulfilled value => ⟨entry.2, true, some value, none⟩
        | .rejected message => ⟨entry.2, false, none, some message⟩ }

/-- The verdict `checkEmailBreach` builds for a valid address. Both checkers
catch whatever they throw, so both promises of `Promise.allSettled` are
fulfilled. -/
def emailVerdict (w : EmailWorld) (email : String) : EmailVerdict :=
  assembleEmailVerdict w email
    [.fulfilled (checkBreachDirectory w email), .fulfilled (checkEmailReputation w email)]

/-- `checkEmailBreach(email)`: the verdict, or the message of the error
thrown. -/
def checkEmailBreach (w : EmailWorld) (email : String) : Except String EmailVerdict :=
  if !isValidEmail email then .error "Invalid email format"
  else .ok (emailVerdict w email)

/-! ## `performDnsAnalysis` (urlScanner.js, lines 401-483) -/

/-- How the three lookups for a host name settle: the records, or `none`
when the lookup rejects. `mx` holds the `exchange` of each record, `txt` the
chunks of each record. -/
structure DnsLookups where
  a : Option (List String)
  mx : Option (List String)
  txt : Option (List (List String))
deriving DecidableEq, Repr

/-- The warnings pushed inside the outer `try`, once the A records are
there. -/
def dnsWarnings (aRecords : List String) (mx : Option (List String))
    (txt : Option (List (List String))) (hostname : String) : List Finding :=
  (if aRecords.length > 5 then
    [⟨"multiple_ips", "low", "Domain resolves to many IP addresses",
      "Could indicate CDN usage or potential malicious infrastructure"⟩] else []) ++
  (match mx with
   | some _ => []
   | none =>
      if includes hostname "bank" || includes hostname "secure" then
        [⟨"no_mx_records", "low", "No mail exchange records found",
          "Legitimate financial/security sites typically have email infrastructure"⟩] else []) ++
  (match txt with
   | some txtRecords =>
      (if !(txtRecords.any fun record => record.any fun chunk => includes chunk "v=spf1") then
        [⟨"no_spf_record", "low", "No SPF record found",
          "Missing SPF record makes domain vulnerable to email spoofing"⟩] else []) ++
      (if !(txtRecords.any fun record => record.any fun chunk => includes chunk "v=DMARC1") then
        [⟨"no_dmarc_record", "low", "No DMARC record found",
          "Missing DMARC record reduces email security"⟩] else [])
   | none => [])

/-- `performDnsAnalysis(hostname)`, given how the lookups settle. A rejected
A lookup lands in the outer `catch`; rejected MX and TXT lookups land in
their own. -/
def performDnsAnalysis (lookups : DnsLookups) (hostname : String) : CheckerResult :=
  match lookups.a with
  | some aRecords =>
      { threats := [], warnings := dnsWarnings aRecords lookups.mx lookups.txt hostname }
  | none =>
      { threats :=
          [⟨"dns_resolution_failed", "high", "DNS resolution failed",
            "Could indicate malicious or non-existent domain"⟩]
        warnings := [] }

/-! ## `getDomainReputation` (domainReputation.js) -/

/-- A JavaScript value as far as `getDomainReputation` tells values apart:
`null`, `undefined`, a string, or anything else (a number, a boolean, an
object). -/
inductive JsValue where
  | null
  | undefined
  | string (s : String)
  | other
deriving DecidableEq, Repr

/-- The list `suspiciousTlds` of `analyzeDomainHeuristics`. -/
def reputationSuspiciousTlds : List String :=
  ["xyz", "top", "club", "online", "site", "gq", "ml", "cf", "tk", "click", "link", "bid",
   "loan", "work", "tech", "app", "dev", "io", "co", "me", "tv", "cc", "ws", "info", "biz",
   "zip", "mov", "country", "ga"]

/-- The list `suspiciousPatterns` of `analyzeDomainHeuristics`. -/
def reputationSuspiciousPatterns : List String :=
  ["bank", "secure", "login", "verify", "update", "account", "password", "credit", "debit",
   "social", "security", "irs", "paypal", "wallet", "free", "gift", "bonus", "claim", "reward",
   "prize", "winner", "urgent", "limited", "offer", "discount", "sale", "deal", "save", "money",
   "cash", "payment", "billing", "invoice", "refund", "support", "help", "customer", "service"]

/-- The last part of `domain.split('.')`, or `unknown` were there none. -/
def lastLabel (domain : String) : String :=
  match (splitDots domain.toList).getLast? with
  | some part => String.mk part
  | none => "unknown"

/-- The `reasons` collected by `analyzeDomainHeuristics` for a non-empty
string, in the order they are pushed; `suspicious` is set exactly when a
reason is pushed. -/
def heuristicReasons (domain : String) : List String :=
  (if reputationSuspiciousTlds.contains (lastLabel domain) then
    ["Suspicious TLD: ." ++ lastLabel domain] else []) ++
  (if hyphenCount domain > 2 then
    ["Excessive hyphens: " ++ toString (hyphenCount domain)] else []) ++
  (if domain.length > 50 then ["Domain name too long"] else []) ++
  (if includes domain "xn--" then ["Punycode domain detected"] else []) ++
  (let foundPatterns :=
      reputationSuspiciousPatterns.filter fun pattern => includes (toLowerCase domain) pattern
   if foundPatterns.length > 0 then
    ["Suspicious keywords: " ++ ", ".intercalate foundPatterns] else [])

/-- `getDomainReputation(domain)`: the guard for a falsy or non-string
argument, then the `domain_heuristics` warning when the heuristics find the
domain suspicious. -/
def getDomainReputation (domain : JsValue) : CheckerResult :=
  match domain with
  | .string d =>
      if d = "" then
        { threats := []
          warnings :=
            [⟨"invalid_domain", "low", "Invalid domain parameter",
              "Domain is null, undefined, or not a string"⟩] }
      else
        { threats := []
          warnings :=
            if (heuristicReasons d).length > 0 then
              [⟨"domain_heuristics", "medium", "Domain shows suspicious patterns",
                ", ".intercalate (heuristicReasons d)⟩]
            else [] }
  | _ =>
      { threats := []
        warnings :=
          [⟨"invalid_domain", "low", "Invalid domain parameter",
            "Domain is null, undefined, or not a string"⟩] }

/-! ## The vendor lookups and `getThreatIntelligence` (threatIntelligence.js) -/

/-- An entry of the array `Promise.allSettled` resolves to, for a promise of
a value of type `α`. -/
inductive Outcome (α : Type) where
  | fulfilled (value : α)
  | rejected (reason : String)
deriving DecidableEq, Repr

/-- What `checkGoogleSafeBrowsing` resolves to: `safe`, and `threats` when
the API answered. -/
structure SafeBrowsingResult where
  safe : Bool
  threats : List String
deriving DecidableEq, Repr

/-- What `checkVirusTotal` resolves to, as far as it is read: `malicious`. -/
structure VirusTotalResult where
  malicious : Int
deriving DecidableEq, Repr

/-- What `checkUrlVoid` resolves to, as far as it is read: `reputation`. -/
structure UrlVoidResult where
  reputation : Int
deriving DecidableEq, Repr

/-- What `checkPhishTank` resolves to, as far as it is read: `inDatabase`. -/
structure PhishTankResult where
  inDatabase : Bool
deriving DecidableEq, Repr

/-- What the vendor lookups consult: the API keys of the environment, and how
each request settles for a URL or host name, `none` when it fails.
`safeBrowsing` gives `response.data.matches` as the list of its threat types,
`none` when the property is absent; `virusTotal` gives `report.positives` and
`urlVoid` gives `data.reputation`, `none` when absent; `phishTank` gives the
page returned. -/
structure Vendors where
  googleSafeBrowsingKey : Option String
  virusTotalKey : Option String
  urlVoidKey : Option String
  safeBrowsing : String → Option (Option (List String))
  virusTotal : String → Option (Option Int)
  urlVoid : String → Option (Option Int)
  phishTank : String → Option String

/-- `value || fallback` on a number that may be absent: `0` is falsy. -/
def numberOr (value : Option Int) (fallback : Int) : Int :=
  match value with
  | some v => if v ≠ 0 then v else fallback
  | none => fallback

/-- `checkGoogleSafeBrowsing(url)`. -/
def checkGoogleSafeBrowsing (v : Vendors) (url : String) : SafeBrowsingResult :=
  if !truthy v.googleSafeBrowsingKey then { safe := true, threats := [] }
  else
    match v.safeBrowsing url with
    | some (some threatTypes) => { safe := false, threats := threatTypes }
    | some none => { safe := true, threats := [] }
    | none => { safe := true, threats := [] }

/-- `checkVirusTotal(url)`. -/
def checkVirusTotal (v : Vendors) (url : String) : VirusTotalResult :=
  if !truthy v.virusTotalKey then { malicious := 0 }
  else
    match v.virusTotal url with
    | some positives => { malicious := numberOr positives 0 }
    | none => { malicious := 0 }

/-- `checkUrlVoid(hostname)`. -/
def checkUrlVoid (v : Vendors) (hostname : String) : UrlVoidResult :=
  if !truthy v.urlVoidKey then { reputation := 50 }
  else
    match v.urlVoid hostname with
    | some reputation => { reputation := numberOr reputation 50 }
    | none => { reputation := 50 }

/-- `checkPhishTank(url)`. -/
def checkPhishTank (v : Vendors) (url : String) : PhishTankResult :=
  match v.phishTank url with
  | some page => { inDatabase := includes page "phish confirmed" || includes page "phish verified" }
  | none => { inDatabase := false }

/-- The block `// Process Google Safe Browsing results`. -/
def safeBrowsingFindings (googleSafeBrowsing : Outcome SafeBrowsingResult) : List Finding :=
  match googleSafeBrowsing with
  | .fulfilled value =>
      if !value.safe then
        [⟨"google_safe_browsing", "high", "Flagged by Google Safe Browsing",
          ", ".intercalate value.threats⟩] else []
  | .rejected _ => []

/-- The block `// Process VirusTotal results`. -/
def virusTotalFindings (virusTotal : Outcome VirusTotalResult) : List Finding :=
  match virusTotal with
  | .fulfilled value =>
      if value.malicious > 0 then
        [⟨"virus_total", "high",
          "Flagged by " ++ toString value.malicious ++ " security vendors",
          "Multiple security vendors have flagged this URL as malicious"⟩] else []
  | .rejected _ => []

/-- The block `// Process URLVoid results`. -/
def urlVoidFindings (urlVoid : Outcome UrlVoidResult) : List Finding :=
  match urlVoid with
  | .fulfilled value =>
      if value.reputation < 50 then
        [⟨"urlvoid_reputation", "medium", "Low domain reputation score",
          "Domain reputation: " ++ toString value.reputation ++ "/100"⟩] else []
  | .rejected _ => []

/-- The block `// Process PhishTank results`. -/
def phishTankFindings (phishTank : Outcome PhishTankResult) : List Finding :=
  match phishTank with
  | .fulfilled value =>
      if value.inDatabase then
        [⟨"phishtank", "critical", "Found in PhishTank database",
          "Community-verified phishing attempt"⟩] else []
  | .rejected _ => []

/-- The body of `getThreatIntelligence` after `Promise.allSettled`: the
findings built from the four settled lookups. Safe Browsing, VirusTotal and
PhishTank push threats, URLVoid pushes a warning. -/
def threatIntelFindings (googleSafeBrowsing : Outcome SafeBrowsingResult)
    (virusTotal : Outcome VirusTotalResult) (urlVoid : Outcome UrlVoidResult)
    (phishTank : Outcome PhishTankResult) : CheckerResult :=
  { threats :=
      safeBrowsingFindings googleSafeBrowsing ++ virusTotalFindings virusTotal ++
        phishTankFindings phishTank
    warnings := urlVoidFindings urlVoid }

/-- `getThreatIntelligence(url, hostname)`. The four lookups catch whatever
they throw, so all four promises are fulfilled. -/
def getThreatIntelligence (v : Vendors) (url hostname : String) : CheckerResult :=
  threatIntelFindings (.fulfilled (checkGoogleSafeBrowsing v url))
    (.fulfilled (checkVirusTotal v url)) (.fulfilled (checkUrlVoid v hostname))
    (.fulfilled (checkPhishTank v url))

/-! ## The batch endpoint (routes/emailBreach.js, lines 57-105) -/

/-- An entry of `processedResults`. -/
structure BatchEntry where
  email : String
  success : Bool
  data : Option EmailVerdict
  error : Option String
deriving DecidableEq, Repr

/-- The object `batchResult`, without `batchId`, `timestamp` and
`batchDuration`. -/
structure BatchResult where
  totalEmails : Nat
  successfulChecks : Nat
  failedChecks : Nat
  results : List BatchEntry
deriving DecidableEq, Repr

/-- What the endpoint answers: status 400 with `Validation failed` from the
middleware, or the batch result. -/
inductive BatchResponse where
  | validationFailed
  | ok (data : BatchResult)
deriving DecidableEq, Repr

/-- The entry built from an address and its settled check. -/
def batchEntry (email : String) (result : Except String EmailVerdict) : BatchEntry :=
  match result with
  | .ok value => { email := email, success := true, data := some value, error := none }
  | .error message => { email := email, success := false, data := none, error := some message }

/-- The handler of `POST /email/batch`: every address is checked, the settled
checks become the entries, and the entries are counted. -/
def batchHandler (w : EmailWorld) (emails : List String) : BatchResult :=
  let processedResults := emails.map fun email => batchEntry email (checkEmailBreach w email)
  { totalEmails := emails.length
    successfulChecks := (processedResults.filter fun r => r.success).length
    failedChecks := (processedResults.filter fun r => !r.success).length
    results := processedResults }

/-- `validateInput(batchEmailCheckSchema)` followed by the handler.
`joiEmail` is the test `Joi.string().email()` applies to an item; the schema
also wants between 1 and 100 items. -/
def batchEndpoint (joiEmail : String → Bool) (w : EmailWorld) (emails : List String) :
    BatchResponse :=
  if emails.all joiEmail && decide (1 ≤ emails.length) && decide (emails.length ≤ 100) then
    .ok (batchHandler w emails)
  else .validationFailed

/-! ## Sample inputs -/

/-- The `URL` parser on the three sample addresses: what `new URL` yields
for them and for their `href`s; every other string is taken as unparsable. -/
def sampleParseURL (s : String) : Option URL :=
  if s = "https://google.com" ∨ s = "https://google.com/" then
    some ⟨"https://google.com/", "https:", "google.com", "/"⟩
  else if s = "http://example.com" ∨ s = "http://example.com/" then
    some ⟨"http://example.com/", "http:", "example.com", "/"⟩
  else none

/-- `tldjs.getDomain` on the sample host names. -/
def sampleGetDomain (hostname : String) : Option String :=
  if hostname = "google.com" ∨ hostname = "example.com" then some hostname else none

/-- `tldjs.getSubdomain` on the sample host names. -/
def sampleGetSubdomain (hostname : String) : Option String :=
  if hostname = "google.com" ∨ hostname = "example.com" then some "" else none

/-- `tldjs.getPublicSuffix` on the sample host names. -/
def sampleGetPublicSuffix (hostname : String) : Option String :=
  if hostname = "google.com" ∨ hostname = "example.com" then some "com" else none

/-- A world in which every network checker comes back without findings. -/
def quietWorld : World :=
  { parseURL := sampleParseURL
    getDomain := sampleGetDomain
    getSubdomain := sampleGetSubdomain
    getPublicSuffix := sampleGetPublicSuffix
    performDnsAnalysis := fun _ => ⟨[], []⟩
    getDomainReputation := fun _ => ⟨[], []⟩
    getThreatIntelligence := fun _ _ => ⟨[], []⟩
    performContentAnalysis := fun _ => ⟨[], []⟩ }

/-- What `performDnsAnalysis` returns when the A-record lookup fails. -/
def dnsResolutionFailed : CheckerResult :=
  { threats :=
      [⟨"dns_resolution_failed", "high", "DNS resolution failed",
        "Could indicate malicious or non-existent domain"⟩]
    warnings := [] }

/-- A world without name resolution: the DNS checker reports its failure,
the other network checkers come back without findings. -/
def offlineWorld : World :=
  { quietWorld with performDnsAnalysis := fun _ => dnsResolutionFailed }

/-- The `no_ssl_certificate` threat, as both basic analysis and screenshot
analysis build it. -/
def noSslCertificate : Finding :=
  ⟨"no_ssl_certificate", "high", "No SSL certificate (HTTPS)",
    "URL uses HTTP instead of HTTPS - vulnerable to man-in-the-middle attacks"⟩

/-- A record as `checkBreachDirectory` builds it from a response entry with
the given `line` and `domain`. -/
def directoryBreach (line domain : String) : Breach :=
  { source := "BreachDirectory"
    name := line
    domain := domain
    breachDate := "Unknown"
    description := "Data breach detected"
    dataClasses := ["email", "password"]
    isVerified := true
    isFabricated := none
    isSensitive := none
    isRetired := none
    isSpamList := none }

/-- The `Date` parser on the sample dates; every other string, `Unknown`
among them, is an invalid date. -/
def sampleParseDate (s : String) : Option CalendarDate :=
  if s = "2022-01-01" then some ⟨2022, 1, 1⟩
  else if s = "2024-12-31" then some ⟨2024, 12, 31⟩
  else if s = "2025-01-01" then some ⟨2025, 1, 1⟩
  else none

/-- A deployment without a RapidAPI key on 31 December 2024. -/
def unconfiguredWorld : EmailWorld :=
  { rapidApiKey := none
    request := fun _ => .response none
    toLowerCase := toLowerCase
    parseDate := sampleParseDate
    today := ⟨2024, 12, 31⟩
    todayIso := "2024-12-31" }

/-- A deployment whose RapidAPI key BreachDirectory rejects with status
401. -/
def rejectedKeyWorld : EmailWorld :=
  { unconfiguredWorld with
    rapidApiKey := some "0123456789abcdef"
    request := fun _ => .failure "Request failed with status code 401" (some 401) none }

/-- A record as `checkBreachDirectory` builds it from a response entry with
the given `line`, `domain` and `date`. -/
def datedBreach (line domain date : String) : Breach :=
  { directoryBreach line domain with breachDate := date }

/-- The test of `Joi.string().email()` on the sample addresses, where it
agrees with the pattern of `isValidEmail`: `alice@corp.org` and
`bob@mailinator.com` pass, `not-an-email` does not. -/
def sampleJoiEmail (email : String) : Bool :=
  isValidEmail email

/-- The check of an address fails. -/
def checkFails (w : EmailWorld) (email : String) : Bool :=
  match checkEmailBreach w email with
  | .ok _ => false
  | .error _ => true

/-- A deployment without any vendor key, none of whose lookups would
answer. -/
def noKeyVendors : Vendors :=
  { googleSafeBrowsingKey := none
    virusTotalKey := none
    urlVoidKey := none
    safeBrowsing := fun _ => none
    virusTotal := fun _ => none
    urlVoid := fun _ => none
    phishTank := fun _ => none }

/-- A deployment with a URLVoid key, the API reporting the reputation 0 for
every host name. -/
def worstReputationVendors : Vendors :=
  { noKeyVendors with
    urlVoidKey := some "0123456789abcdef"
    urlVoid := fun _ => some (some 0) }

/-- A deployment with a URLVoid key, the API reporting the reputation 10 for
every host name. -/
def lowReputationVendors : Vendors :=
  { noKeyVendors with
    urlVoidKey := some "0123456789abcdef"
    urlVoid := fun _ => some (some 10) }

/-- The rank of a risk level in the order safe, low, medium, high,
critical. -/
def levelRank (level : String) : Nat :=
  if level = "critical" then 4
  else if level = "high" then 3
  else if level = "medium" then 2
  else if level = "low" then 1
  else 0

/-- The `URL` parser on `https://shop.xyz` and its `href`. -/
def shopParseURL (s : String) : Option URL :=
  if s = "https://shop.xyz" ∨ s = "https://shop.xyz/" then
    some ⟨"https://shop.xyz/", "https:", "shop.xyz", "/"⟩
  else none

/-- A world for `https://shop.xyz`: `tldjs` gives the domain `shop.xyz` with
the public suffix `xyz`, the reputation check is the one of
`domainReputation.js`, and DNS, vendors and page content report nothing. -/
def shopWorld : World :=
  { parseURL := shopParseURL
    getDomain := fun hostname => if hostname = "shop.xyz" then some "shop.xyz" else none
    getSubdomain := fun hostname => if hostname = "shop.xyz" then some "" else none
    getPublicSuffix := fun hostname => if hostname = "shop.xyz" then some "xyz" else none
    performDnsAnalysis := fun _ => ⟨[], []⟩
    getDomainReputation := fun domain => getDomainReputation (.string domain)
    getThreatIntelligence := fun _ _ => ⟨[], []⟩
    performContentAnalysis := fun _ => ⟨[], []⟩ }

/-- A world for `https://stackoverflow.com/`: `tldjs` gives the domain
`stackoverflow.com` with the public suffix `com`, and every other checker
reports nothing. -/
def overflowWorld : World :=
  { parseURL := fun s =>
      if s = "https://stackoverflow.com/" then
        some ⟨"https://stackoverflow.com/", "https:", "stackoverflow.com", "/"⟩
      else none
    getDomain := fun _ => some "stackoverflow.com"
    getSubdomain := fun _ => some ""
    getPublicSuffix := fun _ => some "com"
    performDnsAnalysis := fun _ => ⟨[], []⟩
    getDomainReputation := fun _ => ⟨[], []⟩
    getThreatIntelligence := fun _ _ => ⟨[], []⟩
    performContentAnalysis := fun _ => ⟨[], []⟩ }

/-- A world for `https://tk./`, a host name with a trailing dot. The `URL`
parser keeps the dot in the host name; `tldjs` trims it and gives the public
suffix `tk`, and for a bare suffix it gives no registrable domain and no
subdomain, so the reputation check receives the host name `tk.`. The
reputation check is the one of `domainReputation.js`, and DNS, vendors and
page content report nothing. -/
def trailingDotWorld : World :=
  { parseURL := fun s =>
      if s = "https://tk./" then some ⟨"https://tk./", "https:", "tk.", "/"⟩ else none
    getDomain := fun _ => none
    getSubdomain := fun _ => none
    getPublicSuffix := fun hostname => if hostname = "tk." then some "tk" else none
    performDnsAnalysis := fun _ => ⟨[], []⟩
    getDomainReputation := fun domain => getDomainReputation (.string domain)
    getThreatIntelligence := fun _ _ => ⟨[], []⟩
    performContentAnalysis := fun _ => ⟨[], []⟩ }

/-! ## Properties of the risk scoring engine -/

theorem threatStep_eq (score : Nat) (t : Finding) :
    threatStep score t = score + (threatBase t.severity + threatBonus t.type) := by
  unfold threatStep threatBase threatBonus
  by_cases hc : t.severity = "critical"
  · by_cases h1 : t.type = "lookalike_domain" <;> by_cases h2 : t.type = "raw_ip_address" <;>
      by_cases h3 : t.type = "punycode_domain" <;> simp_all
  · by_cases hh : t.severity = "high"
    · by_cases h1 : t.type = "lookalike_domain" <;> by_cases h2 : t.type = "raw_ip_address" <;>
        by_cases h3 : t.type = "punycode_domain" <;> simp_all
    · by_cases hm : t.severity = "medium"
      · by_cases h1 : t.type = "lookalike_domain" <;> by_cases h2 : t.type = "raw_ip_address" <;>
          by_cases h3 : t.type = "punycode_domain" <;> simp_all
      · by_cases hl : t.severity = "low" <;>
          by_cases h1 : t.type = "lookalike_domain" <;> by_cases h2 : t.type = "raw_ip_address" <;>
          by_cases h3 : t.type = "punycode_domain" <;> simp_all

theorem warningStep_eq (score : Nat) (w : Finding) :
    warningStep score w = score + (warnBase w.severity + warnBonus w.type) := by
  unfold warningStep warnBase warnBonus
  by_cases hh : w.severity = "high"
  · by_cases h1 : w.type = "suspicious_tld" <;> by_cases h2 : w.type = "random_elements" <;>
      by_cases h3 : w.type = "suspicious_subdomain" <;> simp_all
  · by_cases hm : w.severity = "medium"
    · by_cases h1 : w.type = "suspicious_tld" <;> by_cases h2 : w.type = "random_elements" <;>
        by_cases h3 : w.type = "suspicious_subdomain" <;> simp_all
    · by_cases hl : w.severity = "low" <;>
        by_cases h1 : w.type = "suspicious_tld" <;> by_cases h2 : w.type = "random_elements" <;>
        by_cases h3 : w.type = "suspicious_subdomain" <;> simp_all

theorem foldl_threatStep (threats : List Finding) (score : Nat) :
    threats.foldl threatStep score
      = score + (threats.map fun t => threatBase t.severity + threatBonus t.type).sum := by
  induction threats generalizing score with
  | nil => simp
  | cons t rest ih =>
      simp only [List.foldl_cons, List.map_cons, List.sum_cons, ih, threatStep_eq]
      omega

theorem foldl_warningStep (warnings : List Finding) (score : Nat) :
    warnings.foldl warningStep score
      = score + (warnings.map fun w => warnBase w.severity + warnBonus w.type).sum := by
  induction warnings generalizing score with
  | nil => simp
  | cons x rest ih =>
      simp only [List.foldl_cons, List.map_cons, List.sum_cons, ih, warningStep_eq]
      omega

/-- The accumulator before the cap is the plain sum of the contributions. -/
theorem rawRiskScore_eq_sum (threats warnings : List Finding) :
    rawRiskScore threats warnings
      = (threats.map fun t => threatBase t.severity + threatBonus t.type).sum
        + (warnings.map fun w => warnBase w.severity + warnBonus w.type).sum := by
  unfold rawRiskScore
  rw [foldl_warningStep, foldl_threatStep]
  omega

/-- Every critical threat contributes at least 40 to the sum. -/
theorem criticalCount_le_sum (threats : List Finding) :
    40 * criticalCount threats
      ≤ (threats.map fun t => threatBase t.severity + threatBonus t.type).sum := by
  induction threats with
  | nil => simp [criticalCount]
  | cons t rest ih =>
      unfold criticalCount at ih ⊢
      by_cases hc : t.severity = "critical"
      · simp [List.filter_cons, hc, threatBase] at ih ⊢
        omega
      · simp [List.filter_cons, hc] at ih ⊢
        omega

/-- A finding of a list contributes to the sum of the list. -/
theorem contribution_le_sum (f : Finding → Nat) (x : Finding) (l : List Finding)
    (h : x ∈ l) : f x ≤ (l.map f).sum := by
  induction l with
  | nil => cases h
  | cons y rest ih =>
      rcases List.mem_cons.mp h with rfl | h'
      · simp
      · have := ih h'
        simp only [List.map_cons, List.sum_cons]
        omega

/-- C1. For every list of threats and every list of warnings,
`calculateRiskScore` returns a score between 0 and 100, and exactly 100 as
soon as three or more threats are critical. -/
theorem calculateRiskScore_bounds (threats warnings : List Finding) :
    0 ≤ calculateRiskScore threats warnings ∧
      calculateRiskScore threats warnings ≤ 100 ∧
      (3 ≤ criticalCount threats → calculateRiskScore threats warnings = 100) := by
  refine ⟨Nat.zero_le _, ?_, ?_⟩
  · unfold calculateRiskScore
    exact Nat.min_le_right _ _
  · intro h
    have hsum := criticalCount_le_sum threats
    unfold calculateRiskScore
    rw [rawRiskScore_eq_sum]
    omega

/-- C1, at three critical threats and one warning. -/
theorem calculateRiskScore_bounds_witness :
    3 ≤ criticalCount
        [⟨"phishtank", "critical", "", ""⟩, ⟨"phishtank", "critical", "", ""⟩,
         ⟨"phishtank", "critical", "", ""⟩] ∧
      calculateRiskScore
        [⟨"phishtank", "critical", "", ""⟩, ⟨"phishtank", "critical", "", ""⟩,
         ⟨"phishtank", "critical", "", ""⟩] [⟨"suspicious_tld", "medium", "", ""⟩] = 100 :=
  ⟨by decide, (calculateRiskScore_bounds _ _).2.2 (by decide)⟩

/-- C2. `calculateRiskScore` is the sum, capped at 100, of base amount plus
type bonus over all threats and all warnings, with the tables of the
specification; unlisted severities and types contribute 0. -/
theorem calculateRiskScore_eq_spec (threats warnings : List Finding) :
    calculateRiskScore threats warnings = specRiskScore threats warnings := by
  unfold calculateRiskScore specRiskScore
  rw [rawRiskScore_eq_sum, Nat.min_comm]

/-- C3. `determineRiskLevel` returns `critical` from 50, `high` from 30 to
49, `medium` from 15 to 29, `low` from 5 to 14 and `safe` below 5, and each
level only there. -/
theorem determineRiskLevel_iff (score : Int) :
    (determineRiskLevel score = "critical" ↔ score ≥ 50) ∧
      (determineRiskLevel score = "high" ↔ 30 ≤ score ∧ score < 50) ∧
      (determineRiskLevel score = "medium" ↔ 15 ≤ score ∧ score < 30) ∧
      (determineRiskLevel score = "low" ↔ 5 ≤ score ∧ score < 15) ∧
      (determineRiskLevel score = "safe" ↔ score < 5) := by
  unfold determineRiskLevel
  by_cases h50 : score ≥ 50
  · simp [h50]; omega
  · by_cases h30 : score ≥ 30
    · simp [h50, h30]; omega
    · by_cases h15 : score ≥ 15
      · simp [h50, h30, h15]; omega
      · by_cases h5 : score ≥ 5
        · simp [h50, h30, h15, h5]; omega
        · simp [h50, h30, h15, h5]; omega

/-! ## Properties of `scanUrlComprehensive` -/

/-- A scan that returns has normalised and parsed its input, and returns what
steps 1 to 6 build from the parsed URL. -/
theorem scanUrlComprehensive_ok (w : World) (url : String) (options : Options)
    (r : ScanResult) (h : scanUrlComprehensive w url options = .ok r) :
    ∃ normalizedUrl urlObj, normalizeUrl w.parseURL url = some normalizedUrl ∧
      w.parseURL normalizedUrl = some urlObj ∧ r = scanParsed w options normalizedUrl urlObj := by
  unfold scanUrlComprehensive at h
  cases hn : normalizeUrl w.parseURL url with
  | none => simp [hn] at h
  | some normalizedUrl =>
      simp only [hn] at h
      by_cases he : normalizedUrl = ""
      · simp [he] at h
      · simp only [he, if_false] at h
        cases hu : w.parseURL normalizedUrl with
        | none => simp [hu] at h
        | some urlObj =>
            simp only [hu] at h
            refine ⟨normalizedUrl, urlObj, rfl, hu, ?_⟩
            injection h with h
            exact h.symm

/-- C4. In every verdict returned by `scanUrlComprehensive`, `safe` is true
exactly when the level is `safe` or `low` or basic analysis reported the
target as whitelisted. -/
theorem scanUrlComprehensive_safe_iff (w : World) (url : String) (options : Options)
    (r : ScanResult) (h : scanUrlComprehensive w url options = .ok r) :
    r.safe = true ↔
      (r.riskLevel = "safe" ∨ r.riskLevel = "low" ∨ r.details.basicAnalysis.whitelisted = true) := by
  obtain ⟨n, u, -, -, rfl⟩ := scanUrlComprehensive_ok w url options r h
  simp only [scanParsed]
  cases hw : (performBasicAnalysis w.getPublicSuffix u (toLowerCase u.hostname)
      (w.getDomain (toLowerCase u.hostname)) (w.getSubdomain (toLowerCase u.hostname))).whitelisted
  · simp
  · simp

/-- C4, at `https://google.com` in the quiet world. -/
theorem scanUrlComprehensive_safe_iff_witness :
    scanUrlComprehensive quietWorld "https://google.com" {}
        = .ok (scanParsed quietWorld {} "https://google.com/"
            ⟨"https://google.com/", "https:", "google.com", "/"⟩) ∧
      ((scanParsed quietWorld {} "https://google.com/"
            ⟨"https://google.com/", "https:", "google.com", "/"⟩).safe = true ↔
        ((scanParsed quietWorld {} "https://google.com/"
            ⟨"https://google.com/", "https:", "google.com", "/"⟩).riskLevel = "safe" ∨
          (scanParsed quietWorld {} "https://google.com/"
            ⟨"https://google.com/", "https:", "google.com", "/"⟩).riskLevel = "low" ∨
          (scanParsed quietWorld {} "https://google.com/"
            ⟨"https://google.com/", "https:", "google.com", "/"⟩).details.basicAnalysis.whitelisted
            = true)) :=
  ⟨by rfl, scanUrlComprehensive_safe_iff quietWorld "https://google.com" {} _ (by rfl)⟩

/-- The host name of a verdict is whitelisted by the test of basic analysis
exactly when its basic analysis says so. -/
theorem scanParsed_whitelisted (w : World) (options : Options) (n : String) (u : URL) :
    (scanParsed w options n u).details.basicAnalysis.whitelisted
      = isWhitelisted (scanParsed w options n u).hostname
          (w.getDomain (scanParsed w options n u).hostname)
          (scanParsed w options n u).subdomain := by
  simp only [scanParsed, performBasicAnalysis]
  split <;> simp_all

/-- C5. When the host name passes the whitelist test of basic analysis, the
verdict has score 0, level `safe` and `safe = true`, whatever the DNS,
reputation, threat-intelligence, content and screenshot checkers return. -/
theorem scanUrlComprehensive_whitelist_override (w : World) (url : String) (options : Options)
    (r : ScanResult) (h : scanUrlComprehensive w url options = .ok r)
    (hw : isWhitelisted r.hostname (w.getDomain r.hostname) r.subdomain = true) :
    r.riskScore = 0 ∧ r.riskLevel = "safe" ∧ r.safe = true := by
  obtain ⟨n, u, -, -, rfl⟩ := scanUrlComprehensive_ok w url options r h
  rw [← scanParsed_whitelisted] at hw
  simp only [scanParsed] at hw ⊢
  simp [hw]

/-- C5, at `https://google.com` with name resolution failing. -/
theorem scanUrlComprehensive_whitelist_override_witness :
    scanUrlComprehensive offlineWorld "https://google.com" {}
        = .ok (scanParsed offlineWorld {} "https://google.com/"
            ⟨"https://google.com/", "https:", "google.com", "/"⟩) ∧
      isWhitelisted "google.com" (offlineWorld.getDomain "google.com") (some "") = true ∧
      (scanParsed offlineWorld {} "https://google.com/"
          ⟨"https://google.com/", "https:", "google.com", "/"⟩).riskScore = 0 ∧
      (scanParsed offlineWorld {} "https://google.com/"
          ⟨"https://google.com/", "https:", "google.com", "/"⟩).riskLevel = "safe" ∧
      (scanParsed offlineWorld {} "https://google.com/"
          ⟨"https://google.com/", "https:", "google.com", "/"⟩).safe = true :=
  ⟨by rfl, by decide,
    scanUrlComprehensive_whitelist_override offlineWorld "https://google.com" {} _ (by rfl) (by decide)⟩

/-- C6, refuted as stated: `https://google.com` is whitelisted, the DNS
checker has run all the same, and its `dns_resolution_failed` threat is in
the verdict, whose `threats` list is therefore not empty. -/
theorem scanUrlComprehensive_whitelisted_not_all_clear :
    scanUrlComprehensive offlineWorld "https://google.com" {}
        = .ok (scanParsed offlineWorld {} "https://google.com/"
            ⟨"https://google.com/", "https:", "google.com", "/"⟩) ∧
      (scanParsed offlineWorld {} "https://google.com/"
          ⟨"https://google.com/", "https:", "google.com", "/"⟩).details.basicAnalysis.whitelisted
        = true ∧
      (scanParsed offlineWorld {} "https://google.com/"
          ⟨"https://google.com/", "https:", "google.com", "/"⟩).details.dnsAnalysis
        = dnsResolutionFailed ∧
      (scanParsed offlineWorld {} "https://google.com/"
          ⟨"https://google.com/", "https:", "google.com", "/"⟩).threats
        = [⟨"dns_resolution_failed", "high", "DNS resolution failed",
            "Could indicate malicious or non-existent domain"⟩] :=
  ⟨by rfl, by decide, by decide, by decide⟩

/-- C6, amended. On a whitelist hit basic analysis contributes no finding,
the DNS checker and every checker the options enable still run, the verdict
lists exactly what they returned, and score, level and `safe` are forced to
0, `safe` and true. -/
theorem scanUrlComprehensive_whitelisted_findings (w : World) (url : String)
    (options : Options) (r : ScanResult) (h : scanUrlComprehensive w url options = .ok r)
    (hw : r.details.basicAnalysis.whitelisted = true) :
    r.details.basicAnalysis.threats = [] ∧ r.details.basicAnalysis.warnings = [] ∧
      r.details.dnsAnalysis = w.performDnsAnalysis r.hostname ∧
      r.details.reputationAnalysis
        = (if options.includeThreatIntel then some (w.getDomainReputation r.domain) else none) ∧
      r.details.threatIntelligence
        = (if options.includeThreatIntel then some (w.getThreatIntelligence r.url r.hostname)
            else none) ∧
      r.details.contentAnalysis
        = (if options.includeContent then some (w.performContentAnalysis r.url) else none) ∧
      r.details.screenshotAnalysis
        = (if options.includeScreenshot then some (performScreenshotAnalysis r.url) else none) ∧
      r.threats
        = r.details.dnsAnalysis.threats ++ optionalThreats r.details.reputationAnalysis ++
            optionalThreats r.details.threatIntelligence ++
            optionalThreats r.details.contentAnalysis ++
            optionalThreats r.details.screenshotAnalysis ∧
      r.warnings
        = r.details.dnsAnalysis.warnings ++ optionalWarnings r.details.reputationAnalysis ++
            optionalWarnings r.details.threatIntelligence ++
            optionalWarnings r.details.contentAnalysis ++
            optionalWarnings r.details.screenshotAnalysis ∧
      r.riskScore = 0 ∧ r.riskLevel = "safe" ∧ r.safe = true := by
  obtain ⟨n, u, -, -, rfl⟩ := scanUrlComprehensive_ok w url options r h
  have hb : performBasicAnalysis w.getPublicSuffix u (toLowerCase u.hostname)
      (w.getDomain (toLowerCase u.hostname)) (w.getSubdomain (toLowerCase u.hostname))
      = ⟨[], [], true⟩ := by
    simp only [scanParsed, performBasicAnalysis] at hw ⊢
    split
    · rfl
    · rename_i hne
      simp [hne] at hw
  simp only [scanParsed, hb]
  simp

/-- C6 amended, at `https://google.com` with name resolution failing. -/
theorem scanUrlComprehensive_whitelisted_findings_witness :
    (scanParsed offlineWorld {} "https://google.com/"
        ⟨"https://google.com/", "https:", "google.com", "/"⟩).details.basicAnalysis.whitelisted
      = true ∧
    (scanParsed offlineWorld {} "https://google.com/"
        ⟨"https://google.com/", "https:", "google.com", "/"⟩).details.dnsAnalysis
      = offlineWorld.performDnsAnalysis "google.com" ∧
    (scanParsed offlineWorld {} "https://google.com/"
        ⟨"https://google.com/", "https:", "google.com", "/"⟩).riskScore = 0 :=
  ⟨by decide,
    (scanUrlComprehensive_whitelisted_findings offlineWorld "https://google.com" {} _ (by rfl)
      (by decide)).2.2.1,
    (scanUrlComprehensive_whitelisted_findings offlineWorld "https://google.com" {} _ (by rfl)
      (by decide)).2.2.2.2.2.2.2.2.2.1⟩

/-! ## Properties of `performBasicAnalysis` -/

/-- The whitelist test, in the words of the specification. -/
theorem isWhitelisted_iff (hostname : String) (domain subdomain : Option String) :
    isWhitelisted hostname domain subdomain = true ↔
      (hostname ∈ legitimateDomains ∨
        ((∃ d, domain = some d ∧ d ∈ legitimateDomains) ∧
          (∃ sub, subdomain = some sub ∧ sub ∈ trustedSubdomains))) := by
  unfold isWhitelisted
  have hl : ("" : String) ∉ legitimateDomains := by decide
  have ht : ("" : String) ∉ trustedSubdomains := by decide
  cases domain with
  | none => simp
  | some d =>
      cases subdomain with
      | none => simp
      | some sub =>
          simp only [truthy, Bool.or_eq_true, Bool.and_eq_true, List.contains, List.elem_eq_mem, decide_eq_true_eq,
            bne_iff_ne, ne_eq, Option.some.injEq, exists_eq_left']
          constructor
          · rintro (h | ⟨⟨-, h1⟩, -, h2⟩)
            · exact Or.inl h
            · exact Or.inr ⟨h1, h2⟩
          · rintro (h | ⟨h1, h2⟩)
            · exact Or.inl h
            · refine Or.inr ⟨⟨?_, h1⟩, ?_, h2⟩
              · rintro rfl
                exact hl h1
              · rintro rfl
                exact ht h2

/-- C7. `performBasicAnalysis` returns the whitelisted result (the flag set,
no threats, no warnings) exactly when the host name is a member of the
trusted-domain list, or the registrable domain is a member and the subdomain
is one of `www`, `mail`, `docs`, `drive`, `maps`, `translate`. The host names
`google.com.evil.xyz` and `login.paypal.com`, with the domain and subdomain
`tldjs` gives them, are not whitelisted. -/
theorem performBasicAnalysis_whitelisted_iff (getPublicSuffix : String → Option String)
    (urlObj : URL) (hostname : String) (domain subdomain : Option String) :
    (performBasicAnalysis getPublicSuffix urlObj hostname domain subdomain = ⟨[], [], true⟩ ↔
        (hostname ∈ legitimateDomains ∨
          ((∃ d, domain = some d ∧ d ∈ legitimateDomains) ∧
            (∃ sub, subdomain = some sub ∧
              sub ∈ ["www", "mail", "docs", "drive", "maps", "translate"])))) ∧
      ((performBasicAnalysis getPublicSuffix urlObj hostname domain subdomain).whitelisted = true ↔
        performBasicAnalysis getPublicSuffix urlObj hostname domain subdomain = ⟨[], [], true⟩) ∧
      (performBasicAnalysis getPublicSuffix urlObj "google.com.evil.xyz" (some "evil.xyz")
          (some "google.com")).whitelisted = false ∧
      (performBasicAnalysis getPublicSuffix urlObj "login.paypal.com" (some "paypal.com")
          (some "login")).whitelisted = false := by
  have key : ∀ h d sb, (performBasicAnalysis getPublicSuffix urlObj h d sb = ⟨[], [], true⟩ ↔
      isWhitelisted h d sb = true) ∧
      ((performBasicAnalysis getPublicSuffix urlObj h d sb).whitelisted = true ↔
        isWhitelisted h d sb = true) := by
    intro h d sb
    unfold performBasicAnalysis
    by_cases hw : isWhitelisted h d sb = true
    · simp [hw]
    · simp [hw]
  refine ⟨?_, ?_, ?_, ?_⟩
  · rw [(key hostname domain subdomain).1, isWhitelisted_iff]
    rfl
  · rw [(key hostname domain subdomain).1, (key hostname domain subdomain).2]
  · have h := (key "google.com.evil.xyz" (some "evil.xyz") (some "google.com")).2
    have hf : isWhitelisted "google.com.evil.xyz" (some "evil.xyz") (some "google.com") = false := by
      decide
    rw [hf] at h
    simpa using h
  · have h := (key "login.paypal.com" (some "paypal.com") (some "login")).2
    have hf : isWhitelisted "login.paypal.com" (some "paypal.com") (some "login") = false := by
      decide
    rw [hf] at h
    simpa using h

/-- Outside the whitelist, an `http:` URL makes basic analysis end its
threats with `no_ssl_certificate`. -/
theorem noSslCertificate_mem_basicThreats (hostname : String) :
    noSslCertificate ∈ basicThreats "http:" hostname := by
  unfold basicThreats
  simp [noSslCertificate]

/-- A threat of a scored list that is `high` adds at least 25 to the score,
up to the cap. -/
theorem calculateRiskScore_ge_of_high (threats warnings : List Finding) (t : Finding)
    (ht : t ∈ threats) (hs : t.severity = "high") :
    25 ≤ calculateRiskScore threats warnings := by
  have h := contribution_le_sum (fun t => threatBase t.severity + threatBonus t.type) t threats ht
  have hb : threatBase t.severity = 25 := by simp [threatBase, hs]
  simp only [hb] at h
  unfold calculateRiskScore
  rw [rawRiskScore_eq_sum]
  omega

/-- C8. For a URL that parses with scheme `http` and is not whitelisted,
basic analysis emits the threat `no_ssl_certificate` with severity `high`,
and the verdict has a score of at least 25 whatever the other checkers
return. -/
theorem scanUrlComprehensive_http (w : World) (url : String) (options : Options)
    (r : ScanResult) (normalizedUrl : String) (urlObj : URL)
    (hn : normalizeUrl w.parseURL url = some normalizedUrl)
    (hu : w.parseURL normalizedUrl = some urlObj)
    (hp : urlObj.protocol = "http:")
    (h : scanUrlComprehensive w url options = .ok r)
    (hw : r.details.basicAnalysis.whitelisted = false) :
    (∃ t ∈ r.details.basicAnalysis.threats,
        t.type = "no_ssl_certificate" ∧ t.severity = "high" ∧ t ∈ r.threats) ∧
      25 ≤ r.riskScore := by
  obtain ⟨n, u, hn', hu', rfl⟩ := scanUrlComprehensive_ok w url options r h
  rw [hn] at hn'
  obtain rfl : normalizedUrl = n := Option.some.inj hn'
  rw [hu] at hu'
  obtain rfl : urlObj = u := Option.some.inj hu'
  have hnot : isWhitelisted (toLowerCase urlObj.hostname) (w.getDomain (toLowerCase urlObj.hostname))
      (w.getSubdomain (toLowerCase urlObj.hostname)) = false := by
    have := scanParsed_whitelisted w options normalizedUrl urlObj
    rw [hw] at this
    exact this.symm
  have hb : performBasicAnalysis w.getPublicSuffix urlObj (toLowerCase urlObj.hostname)
      (w.getDomain (toLowerCase urlObj.hostname)) (w.getSubdomain (toLowerCase urlObj.hostname))
      = ⟨basicThreats "http:" (toLowerCase urlObj.hostname),
          basicWarnings (w.getPublicSuffix (toLowerCase urlObj.hostname)) urlObj.pathname
            (toLowerCase urlObj.hostname) (w.getSubdomain (toLowerCase urlObj.hostname)),
          false⟩ := by
    simp [performBasicAnalysis, hnot, hp]
  have hmem := noSslCertificate_mem_basicThreats (toLowerCase urlObj.hostname)
  simp only [scanParsed, hb]
  refine ⟨⟨noSslCertificate, hmem, rfl, rfl, ?_⟩, ?_⟩
  · simp only [List.append_assoc]
    exact List.mem_append_left _ hmem
  · simp only [Bool.false_eq_true, if_false]
    refine calculateRiskScore_ge_of_high _ _ noSslCertificate ?_ rfl
    simp only [List.append_assoc]
    exact List.mem_append_left _ hmem

/-- C8, at `http://example.com` in the quiet world. -/
theorem scanUrlComprehensive_http_witness :
    normalizeUrl quietWorld.parseURL "http://example.com" = some "http://example.com/" ∧
      25 ≤ (scanParsed quietWorld {} "http://example.com/"
        ⟨"http://example.com/", "http:", "example.com", "/"⟩).riskScore :=
  ⟨by rfl,
    (scanUrlComprehensive_http quietWorld "http://example.com" {} _ "http://example.com/"
      ⟨"http://example.com/", "http:", "example.com", "/"⟩ (by rfl) (by rfl) (by rfl) (by rfl)
      (by decide)).2⟩

/-- C9, refuted as stated: `http://example.com` scanned with
`includeScreenshot` carries the identical `no_ssl_certificate` threat twice,
once from basic analysis and once from screenshot analysis, and is scored for
both: 25 + 25 + 3 for the `screenshot_disabled` warning. -/
theorem scanUrlComprehensive_duplicate_finding :
    scanUrlComprehensive quietWorld "http://example.com"
        { includeContent := false, includeScreenshot := true, includeThreatIntel := true }
      = .ok (scanParsed quietWorld
          { includeContent := false, includeScreenshot := true, includeThreatIntel := true }
          "http://example.com/" ⟨"http://example.com/", "http:", "example.com", "/"⟩) ∧
    (scanParsed quietWorld
        { includeContent := false, includeScreenshot := true, includeThreatIntel := true }
        "http://example.com/" ⟨"http://example.com/", "http:", "example.com", "/"⟩).threats
      = [noSslCertificate, noSslCertificate] ∧
    (scanParsed quietWorld
        { includeContent := false, includeScreenshot := true, includeThreatIntel := true }
        "http://example.com/" ⟨"http://example.com/", "http:", "example.com", "/"⟩).riskScore
      = 53 ∧
    (scanParsed quietWorld
        { includeContent := false, includeScreenshot := false, includeThreatIntel := true }
        "http://example.com/" ⟨"http://example.com/", "http:", "example.com", "/"⟩).riskScore
      = 25 :=
  ⟨by rfl, by decide, by decide, by decide⟩

/-- C9, amended. The findings of a verdict are the findings of the checkers
that ran, concatenated in the order basic, DNS, reputation, threat
intelligence, content, screenshot, with nothing removed: a finding occurs in
the verdict as often as the checkers emitted it, and outside the whitelist
the score is computed over these lists as they stand. -/
theorem scanUrlComprehensive_findings_concat (w : World) (url : String) (options : Options)
    (r : ScanResult) (h : scanUrlComprehensive w url options = .ok r) :
    r.threats
        = r.details.basicAnalysis.threats ++ r.details.dnsAnalysis.threats ++
            optionalThreats r.details.reputationAnalysis ++
            optionalThreats r.details.threatIntelligence ++
            optionalThreats r.details.contentAnalysis ++
            optionalThreats r.details.screenshotAnalysis ∧
      r.warnings
        = r.details.basicAnalysis.warnings ++ r.details.dnsAnalysis.warnings ++
            optionalWarnings r.details.reputationAnalysis ++
            optionalWarnings r.details.threatIntelligence ++
            optionalWarnings r.details.contentAnalysis ++
            optionalWarnings r.details.screenshotAnalysis ∧
      (∀ f : Finding, r.threats.count f
        = r.details.basicAnalysis.threats.count f + r.details.dnsAnalysis.threats.count f +
            (optionalThreats r.details.reputationAnalysis).count f +
            (optionalThreats r.details.threatIntelligence).count f +
            (optionalThreats r.details.contentAnalysis).count f +
            (optionalThreats r.details.screenshotAnalysis).count f) ∧
      (∀ f : Finding, r.warnings.count f
        = r.details.basicAnalysis.warnings.count f + r.details.dnsAnalysis.warnings.count f +
            (optionalWarnings r.details.reputationAnalysis).count f +
            (optionalWarnings r.details.threatIntelligence).count f +
            (optionalWarnings r.details.contentAnalysis).count f +
            (optionalWarnings r.details.screenshotAnalysis).count f) ∧
      (r.details.basicAnalysis.whitelisted = false →
        r.riskScore = calculateRiskScore r.threats r.warnings) := by
  obtain ⟨n, u, -, -, rfl⟩ := scanUrlComprehensive_ok w url options r h
  refine ⟨rfl, rfl, ?_, ?_, ?_⟩
  · intro f
    simp only [scanParsed, List.count_append]
  · intro f
    simp only [scanParsed, List.count_append]
  · intro hw
    simp only [scanParsed] at hw ⊢
    simp [hw]

/-- C9 amended, at `http://example.com` scanned with `includeScreenshot`. -/
theorem scanUrlComprehensive_findings_concat_witness :
    (scanParsed quietWorld
        { includeContent := false, includeScreenshot := true, includeThreatIntel := true }
        "http://example.com/"
        ⟨"http://example.com/", "http:", "example.com", "/"⟩).threats.count noSslCertificate
      = 1 + 0 + 0 + 0 + 0 + 1 :=
  ((scanUrlComprehensive_findings_concat quietWorld "http://example.com"
      { includeContent := false, includeScreenshot := true, includeThreatIntel := true } _
      (by rfl)).2.2.1 noSslCertificate).trans (by decide)

/-! ## Properties of `removeDuplicateBreaches` -/

/-- C10, at the failing input. The records `(Acme-EU, shop.com)` and
`(Acme, EU-shop.com)` differ in name and in domain but share the key
`Acme-EU-shop.com`: the second is dropped although its pair occurs nowhere
before it. -/
theorem removeDuplicateBreaches_key_collision :
    removeDuplicateBreaches
        [directoryBreach "Acme-EU" "shop.com", directoryBreach "Acme" "EU-shop.com"]
      = [directoryBreach "Acme-EU" "shop.com"] ∧
    ((directoryBreach "Acme-EU" "shop.com").name ≠ (directoryBreach "Acme" "EU-shop.com").name ∧
      (directoryBreach "Acme-EU" "shop.com").domain
        ≠ (directoryBreach "Acme" "EU-shop.com").domain) ∧
    breachKey (directoryBreach "Acme-EU" "shop.com")
      = breachKey (directoryBreach "Acme" "EU-shop.com") := by
  decide

/-- C11, at the failing input. The record `(john, smith-example.com)` differs
in name and in domain from the only earlier record,
`(john-smith, example.com)`, and is not kept: both have the key
`john-smith-example.com`. -/
theorem removeDuplicateBreaches_drops_distinct_record :
    (directoryBreach "john" "smith-example.com").name
        ≠ (directoryBreach "john-smith" "example.com").name ∧
      (directoryBreach "john" "smith-example.com").domain
        ≠ (directoryBreach "john-smith" "example.com").domain ∧
      directoryBreach "john" "smith-example.com" ∉
        removeDuplicateBreaches
          [directoryBreach "john-smith" "example.com",
           directoryBreach "john" "smith-example.com"] := by
  decide

/-! ## Properties of the breach score -/

/-- One step of the loop adds the contribution of the record, the recency
bonus going by calendar year. -/
theorem breachStep_eq (parseDate : String → Option CalendarDate) (today : CalendarDate)
    (score : Nat) (breach : Breach) :
    breachStep parseDate today score breach
      = score + breachContribution (fun breachDay => decide (today.year - breachDay.year ≤ 2))
          parseDate breach := by
  unfold breachStep breachContribution
  cases hp : parseDate breach.breachDate with
  | none =>
      by_cases hs : flagSet breach.isSensitive = true <;> by_cases hv : breach.isVerified = true <;>
        by_cases hd : breach.dataClasses.length > 3 <;> simp [hs, hv, hd]
  | some breachDay =>
      by_cases hy : today.year - breachDay.year ≤ 2 <;> by_cases he : breach.breachDate = "" <;>
        by_cases hs : flagSet breach.isSensitive = true <;>
        by_cases hv : breach.isVerified = true <;>
        by_cases hd : breach.dataClasses.length > 3 <;> simp [hs, hv, hd, he, hy]

theorem foldl_breachStep (parseDate : String → Option CalendarDate) (today : CalendarDate)
    (breaches : List Breach) (score : Nat) :
    breaches.foldl (breachStep parseDate today) score
      = score + (breaches.map (breachContribution
          (fun breachDay => decide (today.year - breachDay.year ≤ 2)) parseDate)).sum := by
  induction breaches generalizing score with
  | nil => simp
  | cons b rest ih =>
      simp only [List.foldl_cons, List.map_cons, List.sum_cons, ih, breachStep_eq]
      omega

/-- C12, refuted as stated: on 31 December 2024 a verified record dated
1 January 2022 is almost three years old, not within the last two years, yet
it receives the recency bonus, the two calendar years differing by 2: the
code returns 40 where the sum of the claim is 30. -/
theorem calculateBreachRiskScore_recency_by_year :
    withinLastTwoYears ⟨2024, 12, 31⟩ ⟨2022, 1, 1⟩ = false ∧
      calculateBreachRiskScore sampleParseDate ⟨2024, 12, 31⟩
        [datedBreach "john:secret" "example.com" "2022-01-01"] = 40 ∧
      specBreachRiskScore sampleParseDate ⟨2024, 12, 31⟩
        [datedBreach "john:secret" "example.com" "2022-01-01"] = 30 := by
  decide

/-- C12, amended. `calculateBreachRiskScore` is the sum, capped at 100, over
the records of 20, plus 15 if sensitive, plus 10 if verified, plus 10 for
more than 3 data classes, plus 10 if the breach date is not empty and parses
to a date whose calendar year is at most 2 less than the current calendar
year; the result is between 0 and 100. -/
theorem calculateBreachRiskScore_eq_year (parseDate : String → Option CalendarDate)
    (today : CalendarDate) (breaches : List Breach) :
    calculateBreachRiskScore parseDate today breaches
        = yearBreachRiskScore parseDate today breaches ∧
      0 ≤ calculateBreachRiskScore parseDate today breaches ∧
      calculateBreachRiskScore parseDate today breaches ≤ 100 := by
  refine ⟨?_, Nat.zero_le _, ?_⟩
  · unfold calculateBreachRiskScore yearBreachRiskScore
    rw [foldl_breachStep, Nat.min_comm]
    simp
  · unfold calculateBreachRiskScore
    exact Nat.min_le_right _ _

/-- C13. `determineBreachRiskLevel` returns `critical` from 80, `high` from
60 to 79, `medium` from 40 to 59, `low` from 20 to 39 and `safe` below 20,
and each level only there. -/
theorem determineBreachRiskLevel_iff (score : Int) :
    (determineBreachRiskLevel score = "critical" ↔ score ≥ 80) ∧
      (determineBreachRiskLevel score = "high" ↔ 60 ≤ score ∧ score < 80) ∧
      (determineBreachRiskLevel score = "medium" ↔ 40 ≤ score ∧ score < 60) ∧
      (determineBreachRiskLevel score = "low" ↔ 20 ≤ score ∧ score < 40) ∧
      (determineBreachRiskLevel score = "safe" ↔ score < 20) := by
  unfold determineBreachRiskLevel
  by_cases h80 : score ≥ 80
  · simp [h80]; omega
  · by_cases h60 : score ≥ 60
    · simp [h80, h60]; omega
    · by_cases h40 : score ≥ 40
      · simp [h80, h60, h40]; omega
      · by_cases h20 : score ≥ 20
        · simp [h80, h60, h40, h20]; omega
        · simp [h80, h60, h40, h20]; omega

/-- The level is `safe` exactly below 20. -/
theorem breachLevel_safe_iff (score : Int) :
    determineBreachRiskLevel score = "safe" ↔ score < 20 := by
  unfold determineBreachRiskLevel
  by_cases h80 : score ≥ 80
  · simp [h80]; omega
  · by_cases h60 : score ≥ 60
    · simp [h80, h60]; omega
    · by_cases h40 : score ≥ 40
      · simp [h80, h60, h40]; omega
      · by_cases h20 : score ≥ 20
        · simp [h80, h60, h40, h20]
        · simp [h80, h60, h40, h20]; omega

/-- The breach score reads the current date only through its calendar
year. -/
theorem breachStep_year (parseDate : String → Option CalendarDate)
    (today later : CalendarDate) (h : today.year = later.year) :
    breachStep parseDate today = breachStep parseDate later := by
  funext score breach
  unfold breachStep
  rw [h]

/-- C17, refuted as stated: the same verified record dated 1 January 2022,
with the same date parser, scores 40 (`medium`) on 31 December 2024 and 30
(`low`) on 1 January 2025. -/
theorem calculateBreachRiskScore_depends_on_date :
    calculateBreachRiskScore sampleParseDate ⟨2024, 12, 31⟩
        [datedBreach "john:secret" "example.com" "2022-01-01"] = 40 ∧
      calculateBreachRiskScore sampleParseDate ⟨2025, 1, 1⟩
        [datedBreach "john:secret" "example.com" "2022-01-01"] = 30 ∧
      determineBreachRiskLevel 40 = "medium" ∧ determineBreachRiskLevel 30 = "low" := by
  decide

/-- C17, amended. `calculateRiskScore` is a function of the two lists passed
to it alone; `calculateBreachRiskScore` is a function of the breach list and
of the current calendar year: two evaluations on the same list, made at two
moments of the same calendar year, return the same score and hence the same
level. -/
theorem calculateBreachRiskScore_same_year (parseDate : String → Option CalendarDate)
    (today later : CalendarDate) (breaches : List Breach) (threats warnings : List Finding)
    (h : today.year = later.year) :
    calculateBreachRiskScore parseDate today breaches
        = calculateBreachRiskScore parseDate later breaches ∧
      determineBreachRiskLevel (calculateBreachRiskScore parseDate today breaches)
        = determineBreachRiskLevel (calculateBreachRiskScore parseDate later breaches) ∧
      calculateRiskScore threats warnings = specRiskScore threats warnings := by
  have hs : calculateBreachRiskScore parseDate today breaches
      = calculateBreachRiskScore parseDate later breaches := by
    unfold calculateBreachRiskScore
    rw [breachStep_year parseDate today later h]
  refine ⟨hs, by rw [hs], ?_⟩
  unfold calculateRiskScore specRiskScore
  rw [rawRiskScore_eq_sum, Nat.min_comm]

/-- C17 amended, at 31 December and 1 January of 2024. -/
theorem calculateBreachRiskScore_same_year_witness :
    calculateBreachRiskScore sampleParseDate ⟨2024, 12, 31⟩
        [datedBreach "john:secret" "example.com" "2022-01-01"]
      = calculateBreachRiskScore sampleParseDate ⟨2024, 1, 1⟩
        [datedBreach "john:secret" "example.com" "2022-01-01"] :=
  (calculateBreachRiskScore_same_year sampleParseDate ⟨2024, 12, 31⟩ ⟨2024, 1, 1⟩
    [datedBreach "john:secret" "example.com" "2022-01-01"] [] [] (by decide)).1

/-! ## Properties of `checkEmailBreach` -/

/-- A check that returns has validated its input and returns what is built
from the two settled checkers. -/
theorem checkEmailBreach_ok (w : EmailWorld) (email : String) (v : EmailVerdict)
    (h : checkEmailBreach w email = .ok v) :
    isValidEmail email = true ∧
      v = emailVerdict w email := by
  unfold checkEmailBreach at h
  by_cases hv : isValidEmail email = true
  · simp only [hv, Bool.not_true, Bool.false_eq_true, if_false] at h
    injection h with h
    exact ⟨hv, h.symm⟩
  · simp [hv] at h

/-- A valid address gets a verdict. -/
theorem checkEmailBreach_of_valid (w : EmailWorld) (email : String)
    (h : isValidEmail email = true) :
    checkEmailBreach w email = .ok (emailVerdict w email) := by
  unfold checkEmailBreach
  simp [h]

/-- The `safe` property of a verdict is the comparison of its level with
`safe`. -/
theorem assembleEmailVerdict_safe (w : EmailWorld) (email : String) (results : List Settled) :
    (assembleEmailVerdict w email results).safe
      = ((assembleEmailVerdict w email results).riskLevel == "safe") := rfl

/-- The level of a verdict is the level of its score. -/
theorem assembleEmailVerdict_level (w : EmailWorld) (email : String) (results : List Settled) :
    (assembleEmailVerdict w email results).riskLevel
      = determineBreachRiskLevel (assembleEmailVerdict w email results).riskScore := rfl

/-- C14, refuted as stated: `signin@corp.org`, checked without a RapidAPI
key, has score 20 and level `low`, and its `safe` is false. -/
theorem checkEmailBreach_low_not_safe :
    checkEmailBreach unconfiguredWorld "signin@corp.org"
        = .ok (emailVerdict unconfiguredWorld "signin@corp.org") ∧
      (emailVerdict unconfiguredWorld "signin@corp.org").riskScore
        = 20 ∧
      (emailVerdict unconfiguredWorld "signin@corp.org").riskLevel
        = "low" ∧
      (emailVerdict unconfiguredWorld "signin@corp.org").safe
        = false :=
  ⟨by rfl, by decide, by decide, by decide⟩

/-- C14, amended. In every verdict returned by `checkEmailBreach`, `safe` is
true exactly when the level is `safe`, that is when the score is below 20; a
verdict of level `low` is not safe. -/
theorem checkEmailBreach_safe_iff (w : EmailWorld) (email : String) (v : EmailVerdict)
    (h : checkEmailBreach w email = .ok v) :
    (v.safe = true ↔ v.riskLevel = "safe") ∧ (v.safe = true ↔ v.riskScore < 20) ∧
      (v.riskLevel = "low" → v.safe = false) := by
  obtain ⟨-, rfl⟩ := checkEmailBreach_ok w email v h
  have h1 : (emailVerdict w email).safe = ((emailVerdict w email).riskLevel == "safe") :=
    assembleEmailVerdict_safe w email _
  have h2 : (emailVerdict w email).riskLevel
      = determineBreachRiskLevel (emailVerdict w email).riskScore :=
    assembleEmailVerdict_level w email _
  refine ⟨?_, ?_, ?_⟩
  · rw [h1, beq_iff_eq]
  · rw [h1, beq_iff_eq, h2, breachLevel_safe_iff]
    omega
  · intro hlow
    rw [h1, hlow]
    decide

/-- C14 amended, at `signin@corp.org` checked without a RapidAPI key. -/
theorem checkEmailBreach_safe_iff_witness :
    checkEmailBreach unconfiguredWorld "signin@corp.org"
        = .ok (emailVerdict unconfiguredWorld "signin@corp.org") ∧
      ((emailVerdict unconfiguredWorld "signin@corp.org").safe = true ↔
        (emailVerdict unconfiguredWorld "signin@corp.org").riskLevel = "safe") :=
  ⟨by rfl, (checkEmailBreach_safe_iff unconfiguredWorld "signin@corp.org" _ (by rfl)).1⟩

/-! ## Properties of `checkEmailReputation` -/

/-- A step over a pattern table never lowers the score and keeps the
warnings pushed so far. -/
theorem patternStep_mono (lowered type severity description : String) (points : Nat)
    (acc : Reputation) (entry : (String → Bool) × String) :
    acc.riskScore ≤ (patternStep lowered type severity description points acc entry).riskScore ∧
      ∀ f ∈ acc.warnings,
        f ∈ (patternStep lowered type severity description points acc entry).warnings := by
  unfold patternStep
  split
  · exact ⟨Nat.le_add_right _ _, fun f hf => List.mem_append_left _ hf⟩
  · exact ⟨Nat.le_refl _, fun f hf => hf⟩

theorem foldl_patternStep_mono (lowered type severity description : String) (points : Nat)
    (table : List ((String → Bool) × String)) (acc : Reputation) :
    acc.riskScore
        ≤ (table.foldl (patternStep lowered type severity description points) acc).riskScore ∧
      ∀ f ∈ acc.warnings,
        f ∈ (table.foldl (patternStep lowered type severity description points) acc).warnings := by
  induction table generalizing acc with
  | nil => exact ⟨Nat.le_refl _, fun f hf => hf⟩
  | cons entry rest ih =>
      have h1 := patternStep_mono lowered type severity description points acc entry
      have h2 := ih (patternStep lowered type severity description points acc entry)
      exact ⟨Nat.le_trans h1.1 h2.1, fun f hf => h2.2 f (h1.2 f hf)⟩

/-- The domain-extension check never lowers the score and keeps the warnings
pushed so far. -/
theorem extensionStage_mono (domain : Option String) (acc : Reputation) :
    acc.riskScore ≤ (extensionStage domain acc).riskScore ∧
      ∀ f ∈ acc.warnings, f ∈ (extensionStage domain acc).warnings := by
  unfold extensionStage
  split
  · split
    · exact ⟨Nat.le_add_right _ _, fun f hf => List.mem_append_left _ hf⟩
    · exact ⟨Nat.le_refl _, fun f hf => hf⟩
  · exact ⟨Nat.le_refl _, fun f hf => hf⟩

/-- A pattern table none of whose patterns matches leaves score and warnings
as they are. -/
theorem foldl_patternStep_of_no_match (lowered type severity description : String)
    (points : Nat) (table : List ((String → Bool) × String)) (acc : Reputation)
    (h : ∀ entry ∈ table, entry.1 lowered = false) :
    table.foldl (patternStep lowered type severity description points) acc = acc := by
  induction table generalizing acc with
  | nil => rfl
  | cons entry rest ih =>
      have he : entry.1 lowered = false := h entry (List.mem_cons_self _ _)
      have hstep : patternStep lowered type severity description points acc entry = acc := by
        simp [patternStep, he]
      rw [List.foldl_cons, hstep]
      exact ih acc fun e hm => h e (List.mem_cons_of_mem _ hm)

/-- The score of a verdict whose first checker carries no score and whose
second carries a non-zero one is at least that score, up to the cap. -/
theorem assembleEmailVerdict_riskScore_ge (w : EmailWorld) (email : String)
    (first second : EmailCheck) (score : Nat) (h1 : first.riskScore = none)
    (h2 : second.riskScore = some score) :
    min score 100
      ≤ (assembleEmailVerdict w email [.fulfilled first, .fulfilled second]).riskScore := by
  simp only [assembleEmailVerdict, List.foldl_cons, List.foldl_nil, collectStep, h1, h2]
  by_cases h0 : score = 0
  · simp [h0]
  · simp only [ne_eq, h0, not_false_eq_true, if_true]
    omega

/-- The reputation of an address with a disposable domain: the
`disposable_email` warning is among the warnings and the score is at least
30. -/
theorem emailReputation_disposable (w : EmailWorld) (email d : String)
    (hd : emailDomain w email = some d) (hl : d ∈ disposableDomains) :
    (⟨"disposable_email", "medium", "Email uses disposable email service",
        "Disposable emails are often used for malicious purposes"⟩ : Finding)
        ∈ (emailReputation w email).warnings ∧
      30 ≤ (emailReputation w email).riskScore := by
  have h0 : disposableStage (some d) ⟨[], 0⟩
      = ⟨[⟨"disposable_email", "medium", "Email uses disposable email service",
          "Disposable emails are often used for malicious purposes"⟩], 30⟩ := by
    simp [disposableStage, hl]
  have m1 := foldl_patternStep_mono (w.toLowerCase email) "suspicious_email_pattern" "low"
    "Email contains suspicious patterns" 10 suspiciousPatterns (disposableStage (some d) ⟨[], 0⟩)
  have m2 := foldl_patternStep_mono (w.toLowerCase email) "potential_breach_target" "medium"
    "Email matches common breach target patterns" 20 breachPatterns
    (suspiciousPatterns.foldl
      (patternStep (w.toLowerCase email) "suspicious_email_pattern" "low"
        "Email contains suspicious patterns" 10) (disposableStage (some d) ⟨[], 0⟩))
  have m3 := extensionStage_mono (some d)
    (breachPatterns.foldl
      (patternStep (w.toLowerCase email) "potential_breach_target" "medium"
        "Email matches common breach target patterns" 20)
      (suspiciousPatterns.foldl
        (patternStep (w.toLowerCase email) "suspicious_email_pattern" "low"
          "Email contains suspicious patterns" 10) (disposableStage (some d) ⟨[], 0⟩)))
  simp only [emailReputation, hd]
  refine ⟨m3.2 _ (m2.2 _ (m1.2 _ ?_)), Nat.le_trans ?_ (Nat.le_trans m1.1 (Nat.le_trans m2.1 m3.1))⟩
  · rw [h0]
    exact List.mem_singleton.mpr rfl
  · rw [h0]

/-- C15. For every address whose lower-cased domain part is in the
disposable-domain list, `checkEmailReputation` emits a `disposable_email`
warning of severity `medium` and returns a score of at least 30, and the
verdict of `checkEmailBreach` has a score of at least 30 whatever
BreachDirectory returns. -/
theorem checkEmailReputation_disposable (w : EmailWorld) (email d : String)
    (hd : emailDomain w email = some d) (hl : d ∈ disposableDomains) :
    (∃ f ∈ (checkEmailReputation w email).warnings,
        f.type = "disposable_email" ∧ f.severity = "medium") ∧
      (∃ score, (checkEmailReputation w email).riskScore = some score ∧ 30 ≤ score) ∧
      30 ≤ (emailVerdict w email).riskScore ∧
      (∀ v, checkEmailBreach w email = .ok v → 30 ≤ v.riskScore) ∧
      (isValidEmail email = true → checkEmailBreach w email = .ok (emailVerdict w email)) := by
  have hrep := emailReputation_disposable w email d hd hl
  have hverdict : 30 ≤ (emailVerdict w email).riskScore := by
    have hfirst : (checkBreachDirectory w email).riskScore = none := by
      unfold checkBreachDirectory
      split
      · rfl
      · split <;> rfl
    have := assembleEmailVerdict_riskScore_ge w email (checkBreachDirectory w email)
      (checkEmailReputation w email) (emailReputation w email).riskScore hfirst rfl
    unfold emailVerdict
    omega
  refine ⟨⟨_, hrep.1, rfl, rfl⟩, ⟨_, rfl, hrep.2⟩, hverdict, ?_, ?_⟩
  · intro v hv
    obtain ⟨-, rfl⟩ := checkEmailBreach_ok w email v hv
    exact hverdict
  · intro hvalid
    exact checkEmailBreach_of_valid w email hvalid

/-- C15, at `test@mailinator.com` checked without a RapidAPI key. -/
theorem checkEmailReputation_disposable_witness :
    emailDomain unconfiguredWorld "test@mailinator.com" = some "mailinator.com" ∧
      30 ≤ (emailVerdict unconfiguredWorld "test@mailinator.com").riskScore :=
  ⟨by decide,
    (checkEmailReputation_disposable unconfiguredWorld "test@mailinator.com" "mailinator.com"
      (by decide) (by decide)).2.2.1⟩

/-- C16, refuted as stated: `bob@mailinator.com` is valid, its only signal is
the disposable domain and no breach record is found, and its verdict has
score 30 and level `low`, below `medium`. -/
theorem disposable_only_verdict_is_low :
    checkEmailBreach unconfiguredWorld "bob@mailinator.com"
        = .ok (emailVerdict unconfiguredWorld "bob@mailinator.com") ∧
      (checkEmailReputation unconfiguredWorld "bob@mailinator.com").warnings
        = [⟨"disposable_email", "medium", "Email uses disposable email service",
            "Disposable emails are often used for malicious purposes"⟩] ∧
      (emailVerdict unconfiguredWorld "bob@mailinator.com").breaches
        = [] ∧
      (emailVerdict unconfiguredWorld "bob@mailinator.com").riskScore
        = 30 ∧
      (emailVerdict unconfiguredWorld "bob@mailinator.com").riskLevel
        = "low" :=
  ⟨by rfl, by decide, by decide, by decide, by decide⟩

/-- C16, amended. For every valid address whose only positive signal is a
disposable domain (no suspicious pattern, no breach-target pattern, no
suspicious extension, no breach record from BreachDirectory), the verdict of
`checkEmailBreach` has score exactly 30 and level `low`, and is not safe. -/
theorem checkEmailBreach_disposable_only (w : EmailWorld) (email d : String)
    (hvalid : isValidEmail email = true)
    (hd : emailDomain w email = some d) (hl : d ∈ disposableDomains)
    (hs : ∀ entry ∈ suspiciousPatterns, entry.1 (w.toLowerCase email) = false)
    (hb : ∀ entry ∈ breachPatterns, entry.1 (w.toLowerCase email) = false)
    (hx : suspiciousDomains.any (fun sd => endsWith d ("." ++ sd)) = false)
    (hn : (checkBreachDirectory w email).breaches = []) :
    checkEmailBreach w email = .ok (emailVerdict w email) ∧
      (emailVerdict w email).riskScore = 30 ∧ (emailVerdict w email).riskLevel = "low" ∧
      (emailVerdict w email).safe = false ∧ (emailVerdict w email).breaches = [] := by
  have hrep : emailReputation w email
      = ⟨[⟨"disposable_email", "medium", "Email uses disposable email service",
          "Disposable emails are often used for malicious purposes"⟩], 30⟩ := by
    simp only [emailReputation, hd]
    rw [foldl_patternStep_of_no_match _ _ _ _ _ _ _ hs,
      foldl_patternStep_of_no_match _ _ _ _ _ _ _ hb]
    simp [extensionStage, disposableStage, hl, hx]
  have hfirst : (checkBreachDirectory w email).riskScore = none := by
    unfold checkBreachDirectory
    split
    · rfl
    · split <;> rfl
  have hcheck : checkEmailReputation w email
      = ⟨[], [⟨"disposable_email", "medium", "Email uses disposable email service",
          "Disposable emails are often used for malicious purposes"⟩], some 30⟩ := by
    simp [checkEmailReputation, hrep]
  refine ⟨checkEmailBreach_of_valid w email hvalid, ?_⟩
  simp only [emailVerdict, assembleEmailVerdict, List.foldl_cons, List.foldl_nil, collectStep,
    hfirst, hn, hcheck]
  have hz : calculateBreachRiskScore w.parseDate w.today
      (removeDuplicateBreaches ([] ++ [] ++ [])) = 0 := rfl
  rw [hz]
  decide

/-- C16 amended, at `bob@mailinator.com` checked without a RapidAPI key. -/
theorem checkEmailBreach_disposable_only_witness :
    isValidEmail "bob@mailinator.com" = true ∧
      (emailVerdict unconfiguredWorld "bob@mailinator.com").riskScore = 30 ∧
      (emailVerdict unconfiguredWorld "bob@mailinator.com").riskLevel = "low" :=
  ⟨by decide,
    (checkEmailBreach_disposable_only unconfiguredWorld "bob@mailinator.com" "mailinator.com"
      (by decide) (by decide) (by decide) (by decide) (by decide) (by decide) (by decide)).2.1,
    (checkEmailBreach_disposable_only unconfiguredWorld "bob@mailinator.com" "mailinator.com"
      (by decide) (by decide) (by decide) (by decide) (by decide) (by decide)
      (by decide)).2.2.1⟩

/-! ## Checker failures in an e-mail check -/

/-- C19, refuted as stated: when BreachDirectory answers 401, the failure is
surfaced as a warning of type `invalid_api_key` with severity `high`, and a
rejected promise as a warning of type `api_failure`; neither has the type
`checker_failed`. -/
theorem checkBreachDirectory_failure_not_checker_failed :
    (checkBreachDirectory rejectedKeyWorld "alice@corp.org").warnings
        = [⟨"invalid_api_key", "high", "BreachDirectory API temporarily unavailable",
            "Invalid API key"⟩] ∧
      (emailVerdict rejectedKeyWorld "alice@corp.org").warnings
        = [⟨"invalid_api_key", "high", "BreachDirectory API temporarily unavailable",
            "Invalid API key"⟩] ∧
      (collectStep ⟨[], [], 0⟩ (.rejected "socket hang up")).warnings
        = [⟨"api_failure", "low", "API check failed", "socket hang up"⟩] := by
  decide

/-- C19, amended. With a RapidAPI key configured, an error caught inside
`checkBreachDirectory` is surfaced as exactly one warning, the first of the
verdict, whose type and severity go by the error: `rate_limit_exceeded`
(medium) for status 429, `invalid_api_key` (high) for 401, `access_forbidden`
(high) for 403, `api_unavailable` (low) for any other status, `timeout`
(medium) for `ECONNABORTED` without a response and `api_unavailable` (low)
otherwise; a rejected checker promise is surfaced as exactly one warning
`api_failure` (low); and `checkEmailBreach` returns a verdict for the valid
address. -/
theorem checkBreachDirectory_failure (w : EmailWorld) (email message : String)
    (status : Option Nat) (code : Option String)
    (hkey : truthy w.rapidApiKey = true ∧ w.rapidApiKey ≠ some "your_rapidapi_key_here" ∧
      w.rapidApiKey ≠ some "demo-key")
    (hr : w.request email = .failure message status code)
    (hvalid : isValidEmail email = true) :
    (checkBreachDirectory w email).breaches = [] ∧
      (checkBreachDirectory w email).warnings = [directoryFailureWarning message status code] ∧
      (status = some 429 →
        (directoryFailureWarning message status code).type = "rate_limit_exceeded" ∧
          (directoryFailureWarning message status code).severity = "medium") ∧
      (status = some 401 →
        (directoryFailureWarning message status code).type = "invalid_api_key" ∧
          (directoryFailureWarning message status code).severity = "high") ∧
      (status = some 403 →
        (directoryFailureWarning message status code).type = "access_forbidden" ∧
          (directoryFailureWarning message status code).severity = "high") ∧
      (status = none → code = some "ECONNABORTED" →
        (directoryFailureWarning message status code).type = "timeout" ∧
          (directoryFailureWarning message status code).severity = "medium") ∧
      (status ≠ some 429 → status ≠ some 401 → status ≠ some 403 →
        (status = none → code ≠ some "ECONNABORTED") →
        (directoryFailureWarning message status code).type = "api_unavailable" ∧
          (directoryFailureWarning message status code).severity = "low") ∧
      (emailVerdict w email).warnings
        = directoryFailureWarning message status code :: (checkEmailReputation w email).warnings ∧
      (∀ (acc : Collected) (reason : String),
        (collectStep acc (.rejected reason)).warnings
          = acc.warnings ++
            [⟨"api_failure", "low", "API check failed",
              if reason != "" then reason else "Unknown error"⟩]) ∧
      checkEmailBreach w email = .ok (emailVerdict w email) := by
  have hdir : checkBreachDirectory w email
      = ⟨[], [directoryFailureWarning message status code], none⟩ := by
    obtain ⟨h1, h2, h3⟩ := hkey
    simp [checkBreachDirectory, h1, h2, h3, hr]
  refine ⟨by rw [hdir], by rw [hdir], ?_, ?_, ?_, ?_, ?_, ?_, ?_,
    checkEmailBreach_of_valid w email hvalid⟩
  · rintro rfl
    exact ⟨rfl, rfl⟩
  · rintro rfl
    exact ⟨rfl, rfl⟩
  · rintro rfl
    exact ⟨rfl, rfl⟩
  · rintro rfl rfl
    exact ⟨rfl, rfl⟩
  · intro h429 h401 h403 hcode
    cases status with
    | none =>
        have hc : code ≠ some "ECONNABORTED" := hcode rfl
        simp [directoryFailureWarning, hc]
    | some st =>
        have a : st ≠ 429 := fun h => h429 (by rw [h])
        have b : st ≠ 401 := fun h => h401 (by rw [h])
        have c : st ≠ 403 := fun h => h403 (by rw [h])
        simp [directoryFailureWarning, a, b, c]
  · simp [emailVerdict, assembleEmailVerdict, collectStep, hdir]
  · intro acc reason
    rfl

/-- C19 amended, at `alice@corp.org` with BreachDirectory answering 401. -/
theorem checkBreachDirectory_failure_witness :
    isValidEmail "alice@corp.org" = true ∧
      (checkBreachDirectory rejectedKeyWorld "alice@corp.org").warnings
        = [directoryFailureWarning "Request failed with status code 401" (some 401) none] ∧
      checkEmailBreach rejectedKeyWorld "alice@corp.org"
        = .ok (emailVerdict rejectedKeyWorld "alice@corp.org") :=
  ⟨by decide,
    (checkBreachDirectory_failure rejectedKeyWorld "alice@corp.org"
      "Request failed with status code 401" (some 401) none (by decide) (by rfl)
      (by decide)).2.1,
    (checkBreachDirectory_failure rejectedKeyWorld "alice@corp.org"
      "Request failed with status code 401" (some 401) none (by decide) (by rfl)
      (by decide)).2.2.2.2.2.2.2.2.2⟩

/-! ## The brand-lookalike rule -/

/-- An entry found by `lookup` is an entry of the table. -/
theorem mem_of_lookup (table : List (String × String)) (key value : String)
    (h : table.lookup key = some value) : (key, value) ∈ table := by
  induction table with
  | nil => simp [List.lookup] at h
  | cons entry rest ih =>
      obtain ⟨k, v⟩ := entry
      by_cases hk : key = k
      · subst hk
        simp [List.lookup] at h
        subst h
        exact List.mem_cons_self _ _
      · have hb : (key == k) = false := by simpa using hk
        simp only [List.lookup, hb] at h
        exact List.mem_cons_of_mem _ (ih h)

/-- No official domain is the empty string. -/
theorem officialDomains_truthy (brand d : String) (h : officialDomains.lookup brand = some d) :
    truthy (some d) = true := by
  have hall : ∀ entry ∈ officialDomains, truthy (some entry.2) = true := by decide
  exact hall (brand, d) (mem_of_lookup _ _ _ h)

/-- The loop over the brands stops at a brand exactly when some known brand
with an official domain occurs in the host name, which does not end with that
domain. -/
theorem lookalikeBrand_isSome_iff (hostname : String) :
    (lookalikeBrand hostname).isSome = true ↔
      ∃ brand ∈ knownBrands, ∃ d, officialDomains.lookup brand = some d ∧
        includes hostname brand = true ∧ endsWith hostname d = false := by
  unfold lookalikeBrand
  rw [List.find?_isSome]
  constructor
  · rintro ⟨brand, hmem, hp⟩
    rw [Bool.and_eq_true] at hp
    obtain ⟨hinc, hrest⟩ := hp
    cases hl : officialDomains.lookup brand with
    | none => simp [hl] at hrest
    | some d =>
        simp only [hl, Bool.and_eq_true, Bool.not_eq_true'] at hrest
        exact ⟨brand, hmem, d, hl, hinc, hrest.2⟩
  · rintro ⟨brand, hmem, d, hl, hinc, hend⟩
    refine ⟨brand, hmem, ?_⟩
    simp [hinc, hl, officialDomains_truthy brand d hl, hend]

/-- The threats of basic analysis hold one `lookalike_domain` threat when the
loop over the brands stops at a brand, and none otherwise. -/
theorem countP_lookalike_basicThreats (protocol hostname : String) :
    (basicThreats protocol hostname).countP (fun t => t.type == "lookalike_domain")
      = if (lookalikeBrand hostname).isSome then 1 else 0 := by
  unfold basicThreats
  simp only [List.countP_append]
  have h1 : ∀ (c : Prop) [Decidable c] (x : Finding), x.type ≠ "lookalike_domain" →
      (if c then [x] else []).countP (fun t => t.type == "lookalike_domain") = 0 := by
    intro c _ x hx
    by_cases hc : c <;> simp [hc, List.countP_cons, hx]
  have h2 : ∀ (c : Bool) (x : Finding), x.type ≠ "lookalike_domain" →
      (if c = true then [x] else []).countP (fun t => t.type == "lookalike_domain") = 0 := by
    intro c x hx
    cases c <;> simp [List.countP_cons, hx]
  rw [h2 _ _ (by decide), h2 _ _ (by decide), h1 _ _ (by decide), h1 _ _ (by decide)]
  cases lookalikeBrand hostname <;> simp [List.countP_cons]

/-- Every `lookalike_domain` threat of basic analysis has severity `high`. -/
theorem lookalike_severity_basicThreats (protocol hostname : String) (t : Finding)
    (ht : t ∈ basicThreats protocol hostname) (hty : t.type = "lookalike_domain") :
    t.severity = "high" := by
  unfold basicThreats at ht
  simp only [List.mem_append] at ht
  rcases ht with (((ht | ht) | ht) | ht) | ht
  · split at ht <;> simp at ht
    subst ht; rfl
  · split at ht <;> simp at ht
    subst ht; rfl
  · split at ht <;> simp at ht
    subst ht; simp at hty
  · split at ht <;> simp at ht
    subst ht; rfl
  · split at ht <;> simp at ht
    subst ht; rfl

/-- C18, refuted as stated: `bank` is a token of the known-brand list and a
substring of `bank-login-secure.verify.com`, which ends with no canonical
domain of `bank` since the table has none for it, yet basic analysis emits
no `lookalike_domain` threat for this non-whitelisted host name. -/
theorem performBasicAnalysis_no_lookalike_for_bank :
    "bank" ∈ knownBrands ∧ includes "bank-login-secure.verify.com" "bank" = true ∧
      officialDomains.lookup "bank" = none ∧
      isWhitelisted "bank-login-secure.verify.com" (some "verify.com")
        (some "bank-login-secure") = false ∧
      (performBasicAnalysis (fun _ => some "com")
          ⟨"https://bank-login-secure.verify.com/", "https:", "bank-login-secure.verify.com",
            "/"⟩
          "bank-login-secure.verify.com" (some "verify.com")
          (some "bank-login-secure")).threats.countP (fun t => t.type == "lookalike_domain")
        = 0 := by
  decide

/-- C18, amended. For every non-whitelisted host name, `performBasicAnalysis`
emits exactly one `lookalike_domain` threat, of severity `high`, if some
known brand that has a canonical domain (every known brand but `bank`) occurs
as a substring of the host name while the host name does not end with that
canonical domain, and emits no `lookalike_domain` threat otherwise; a host
name matching several brands still gets a single threat. -/
theorem performBasicAnalysis_lookalike (getPublicSuffix : String → Option String)
    (urlObj : URL) (hostname : String) (domain subdomain : Option String)
    (hw : isWhitelisted hostname domain subdomain = false) :
    ((∃ brand ∈ knownBrands, ∃ d, officialDomains.lookup brand = some d ∧
          includes hostname brand = true ∧ endsWith hostname d = false) →
        (performBasicAnalysis getPublicSuffix urlObj hostname domain subdomain).threats.countP
          (fun t => t.type == "lookalike_domain") = 1) ∧
      (¬ (∃ brand ∈ knownBrands, ∃ d, officialDomains.lookup brand = some d ∧
          includes hostname brand = true ∧ endsWith hostname d = false) →
        (performBasicAnalysis getPublicSuffix urlObj hostname domain subdomain).threats.countP
          (fun t => t.type == "lookalike_domain") = 0) ∧
      (∀ t ∈ (performBasicAnalysis getPublicSuffix urlObj hostname domain subdomain).threats,
        t.type = "lookalike_domain" → t.severity = "high") ∧
      (∀ brand ∈ knownBrands, brand ≠ "bank" → (officialDomains.lookup brand).isSome = true) ∧
      officialDomains.lookup "bank" = none := by
  have hthreats : (performBasicAnalysis getPublicSuffix urlObj hostname domain subdomain).threats
      = basicThreats urlObj.protocol hostname := by
    simp [performBasicAnalysis, hw]
  rw [hthreats, countP_lookalike_basicThreats, ← lookalikeBrand_isSome_iff]
  refine ⟨?_, ?_, ?_, by decide, by decide⟩
  · intro h
    simp [h]
  · intro h
    simp [h]
  · intro t ht hty
    exact lookalike_severity_basicThreats _ _ t ht hty

/-- C18 amended, at `paypal-google-login.xyz`, which contains two brands. -/
theorem performBasicAnalysis_lookalike_witness :
    isWhitelisted "paypal-google-login.xyz" (some "paypal-google-login.xyz") (some "") = false ∧
      (performBasicAnalysis (fun _ => some "xyz")
          ⟨"https://paypal-google-login.xyz/", "https:", "paypal-google-login.xyz", "/"⟩
          "paypal-google-login.xyz" (some "paypal-google-login.xyz")
          (some "")).threats.countP (fun t => t.type == "lookalike_domain") = 1 :=
  ⟨by decide,
    (performBasicAnalysis_lookalike (fun _ => some "xyz")
      ⟨"https://paypal-google-login.xyz/", "https:", "paypal-google-login.xyz", "/"⟩
      "paypal-google-login.xyz" (some "paypal-google-login.xyz") (some "") (by decide)).1
      ⟨"paypal", by decide, "paypal.com", by decide, by decide, by decide⟩⟩

/-! ## Input validation of `checkEmailBreach` -/

/-- The first `k` characters of `s` are in the class when `k` is at most the
length of the run of such characters `s` starts with. -/
theorem take_of_le_takeWhile (p : Char → Bool) (s : List Char) (k : Nat)
    (h : k ≤ (s.takeWhile p).length) : ∀ c ∈ s.take k, p c = true := by
  induction s generalizing k with
  | nil => simp
  | cons x xs ih =>
      cases k with
      | zero => simp
      | succ k =>
          by_cases hx : p x = true
          · simp only [List.takeWhile_cons, hx, if_true, List.length_cons] at h
            intro c hc
            simp only [List.take_succ_cons, List.mem_cons] at hc
            rcases hc with rfl | hc
            · exact hx
            · exact ih k (by omega) c hc
          · simp [List.takeWhile_cons, hx] at h

/-- A prefix of characters of the class is no longer than the run of such
characters the string starts with. -/
theorem length_le_takeWhile (p : Char → Bool) (u t : List Char)
    (h : ∀ c ∈ u, p c = true) : u.length ≤ ((u ++ t).takeWhile p).length := by
  induction u with
  | nil => simp
  | cons x xs ih =>
      have hx : p x = true := h x (List.mem_cons_self _ _)
      have := ih fun c hc => h c (List.mem_cons_of_mem _ hc)
      simp only [List.cons_append, List.takeWhile_cons, hx, if_true, List.length_cons]
      omega

/-- An atom followed by further atoms matches at `s` exactly when `s` splits
into a run of characters of the class, of a length the quantifier allows,
and a rest the further atoms match. -/
theorem matchHere_cons_iff (anchoredEnd : Bool) (a : Atom) (rest : List Atom) (s : List Char) :
    matchHere anchoredEnd (a :: rest) s = true ↔
      ∃ u t, s = u ++ t ∧ a.allows u.length = true ∧ (∀ c ∈ u, a.cls c = true) ∧
        matchHere anchoredEnd rest t = true := by
  simp only [matchHere, List.any_eq_true, List.mem_range, Bool.and_eq_true]
  constructor
  · rintro ⟨k, hk, hallow, hrest⟩
    have hle : k ≤ (s.takeWhile a.cls).length := by omega
    have hlen : k ≤ s.length :=
      Nat.le_trans hle (List.Sublist.length_le (List.takeWhile_sublist _))
    refine ⟨s.take k, s.drop k, (List.take_append_drop k s).symm, ?_,
      take_of_le_takeWhile a.cls s k hle, hrest⟩
    rw [List.length_take, Nat.min_eq_left hlen]
    exact hallow
  · rintro ⟨u, t, rfl, hallow, hcls, hrest⟩
    refine ⟨u.length, ?_, hallow, ?_⟩
    · have := length_le_takeWhile a.cls u t hcls
      omega
    · rw [List.drop_left]
      exact hrest

/-- `X+` followed by further atoms. -/
theorem matchHere_plus_iff (anchoredEnd : Bool) (cls : Char → Bool) (rest : List Atom)
    (s : List Char) :
    matchHere anchoredEnd (plus cls :: rest) s = true ↔
      ∃ u t, s = u ++ t ∧ u ≠ [] ∧ (∀ c ∈ u, cls c = true) ∧
        matchHere anchoredEnd rest t = true := by
  rw [matchHere_cons_iff]
  constructor
  · rintro ⟨u, t, hs, hallow, hcls, hrest⟩
    refine ⟨u, t, hs, ?_, hcls, hrest⟩
    rintro rfl
    simp [plus, Atom.allows] at hallow
  · rintro ⟨u, t, hs, hne, hcls, hrest⟩
    refine ⟨u, t, hs, ?_, hcls, hrest⟩
    have : 1 ≤ u.length := List.length_pos.mpr hne
    simp [plus, Atom.allows, this]

/-- A literal character followed by further atoms. -/
theorem matchHere_lit_iff (anchoredEnd : Bool) (x : Char) (rest : List Atom) (s : List Char) :
    matchHere anchoredEnd (lit x :: rest) s = true ↔
      ∃ t, s = x :: t ∧ matchHere anchoredEnd rest t = true := by
  rw [matchHere_cons_iff]
  constructor
  · rintro ⟨u, t, hs, hallow, hcls, hrest⟩
    simp only [lit, Atom.allows, Bool.and_eq_true, decide_eq_true_eq] at hallow
    have hlen : u.length = 1 := by omega
    obtain ⟨c, rfl⟩ := List.length_eq_one.mp hlen
    have hc : c = x := by simpa [lit] using hcls c (List.mem_singleton.mpr rfl)
    subst hc
    exact ⟨t, hs, hrest⟩
  · rintro ⟨t, hs, hrest⟩
    refine ⟨[x], t, hs, ?_, ?_, hrest⟩
    · simp [lit, Atom.allows]
    · intro c hc
      simp [lit, List.mem_singleton.mp hc]

/-- The pattern of `isValidEmail` accepts exactly the well-formed
addresses. -/
theorem isValidEmail_iff (email : String) :
    isValidEmail email = true ↔ WellFormedEmail email := by
  have hcls : ∀ c : Char, notSpaceNorAt c = true ↔ (isSpace c = false ∧ c ≠ '@') := by
    intro c
    simp [notSpaceNorAt]
  have hdot : notSpaceNorAt '.' = true := by decide
  unfold isValidEmail WellFormedEmail Pattern.test anchored
  simp only [if_true, matchHere_plus_iff, matchHere_lit_iff]
  constructor
  · rintro ⟨u, t, hs, hu, hucls, t1, rfl, x, r, rfl, hx, hxcls, y, rfl, y1, y2, rfl, hy1, hy1cls,
      hend⟩
    have hy2 : y2 = [] := by simpa [matchHere] using hend
    subst hy2
    refine ⟨u, x ++ '.' :: (y1 ++ []), hs, hu, fun c hc => (hcls c).mp (hucls c hc), ?_,
      x, y1 ++ [], rfl, hx, by simpa using hy1⟩
    intro c hc
    simp only [List.append_nil, List.mem_append, List.mem_cons] at hc
    rcases hc with hc | rfl | hc
    · exact (hcls c).mp (hxcls c hc)
    · exact (hcls _).mp hdot
    · exact (hcls c).mp (hy1cls c hc)
  · rintro ⟨u, dom, hs, hu, hucls, hdom, x, y, rfl, hx, hy⟩
    refine ⟨u, '@' :: (x ++ '.' :: y), hs, hu, fun c hc => (hcls c).mpr (hucls c hc),
      x ++ '.' :: y, rfl, x, '.' :: y, rfl, hx, ?_, y, rfl, y, [], by simp, hy, ?_, ?_⟩
    · intro c hc
      exact (hcls c).mpr (hdom c (List.mem_append_left _ hc))
    · intro c hc
      exact (hcls c).mpr (hdom c (List.mem_append_right _ (List.mem_cons_of_mem _ hc)))
    · simp [matchHere]

/-- C20. `checkEmailBreach` fails with `Invalid email format`, whatever the
checkers would return, exactly when the input is not of the form
`local@domain` with `local` and `domain` free of white space and of further
`@`, `local` not empty and `domain` holding a `.` with at least one character
on each side; every other input gets a verdict. -/
theorem checkEmailBreach_invalid_iff (w : EmailWorld) (email : String) :
    (checkEmailBreach w email = .error "Invalid email format" ↔ ¬ WellFormedEmail email) ∧
      (checkEmailBreach w email = .ok (emailVerdict w email) ↔ WellFormedEmail email) := by
  rw [← isValidEmail_iff]
  unfold checkEmailBreach
  by_cases h : isValidEmail email = true
  · simp [h]
  · simp [h]

/-! ## The batch endpoint -/

/-- The entries of a batch keep the addresses in their order. -/
theorem batchHandler_emails (w : EmailWorld) (emails : List String) :
    (batchHandler w emails).results.map (fun r => r.email) = emails := by
  simp only [batchHandler, List.map_map]
  induction emails with
  | nil => rfl
  | cons e rest ih =>
      simp only [List.map_cons, Function.comp_apply]
      rw [ih]
      congr 1
      unfold batchEntry
      split <;> rfl

/-- An entry is a failure exactly when the check of its address fails. -/
theorem batchEntry_success (w : EmailWorld) (email : String) :
    (batchEntry email (checkEmailBreach w email)).success = !checkFails w email := by
  unfold batchEntry checkFails
  split <;> simp_all

/-- The two counters of a batch. -/
theorem batchHandler_counts (w : EmailWorld) (emails : List String) :
    (batchHandler w emails).failedChecks = (emails.filter (checkFails w)).length ∧
      (batchHandler w emails).successfulChecks
        = (emails.filter fun e => !checkFails w e).length := by
  simp only [batchHandler]
  induction emails with
  | nil => simp
  | cons e rest ih =>
      have he := batchEntry_success w e
      cases hf : checkFails w e <;> simp_all [List.filter_cons]

/-- C21, refuted as stated: a batch of three addresses one of which is
malformed does not get a batch result; the validation middleware answers it
with `Validation failed` and no address is checked. -/
theorem batchEndpoint_rejects_malformed :
    batchEndpoint sampleJoiEmail unconfiguredWorld
        ["alice@corp.org", "not-an-email", "bob@mailinator.com"]
      = .validationFailed := by
  decide

/-- C21, amended. For every batch that passes the validation middleware
(between 1 and 100 items, each an address `Joi.string().email()` accepts),
the batch result has `totalEmails = n`, one entry per address in input order,
`failedChecks` equal to the number of addresses whose check failed and
`successfulChecks + failedChecks = n`: a failing check does not abort the
others. A batch that does not pass, such as one holding a malformed address,
gets no batch result. -/
theorem batchEndpoint_valid (joiEmail : String → Bool) (w : EmailWorld) (emails : List String)
    (hvalid : ∀ e ∈ emails, joiEmail e = true) (hmin : 1 ≤ emails.length)
    (hmax : emails.length ≤ 100) :
    batchEndpoint joiEmail w emails = .ok (batchHandler w emails) ∧
      (batchHandler w emails).totalEmails = emails.length ∧
      (batchHandler w emails).results.length = emails.length ∧
      (batchHandler w emails).results.map (fun r => r.email) = emails ∧
      (batchHandler w emails).results
        = emails.map (fun e => batchEntry e (checkEmailBreach w e)) ∧
      (batchHandler w emails).failedChecks = (emails.filter (checkFails w)).length ∧
      (batchHandler w emails).successfulChecks + (batchHandler w emails).failedChecks
        = emails.length ∧
      (∀ other : List String, (∃ e ∈ other, joiEmail e = false) →
        batchEndpoint joiEmail w other = .validationFailed) ∧
      (∀ other : List String, other.length = 0 ∨ 100 < other.length →
        batchEndpoint joiEmail w other = .validationFailed) := by
  have hall : emails.all joiEmail = true := List.all_eq_true.mpr hvalid
  have hc := batchHandler_counts w emails
  refine ⟨?_, rfl, ?_, batchHandler_emails w emails, rfl, hc.1, ?_, ?_, ?_⟩
  · simp [batchEndpoint, hall, hmin, hmax]
  · simp [batchHandler]
  · rw [hc.1, hc.2]
    have := @List.length_eq_length_filter_add _ emails (checkFails w)
    omega
  · rintro other ⟨e, he, hrej⟩
    have hnot : other.all joiEmail = false := by
      cases hall2 : other.all joiEmail
      · rfl
      · have := List.all_eq_true.mp hall2 e he
        rw [hrej] at this
        cases this
    simp [batchEndpoint, hnot]
  · rintro other (h0 | h100)
    · have : ¬ 1 ≤ other.length := by omega
      simp [batchEndpoint, this]
    · have : ¬ other.length ≤ 100 := by omega
      simp [batchEndpoint, this]

/-- C21 amended, at a batch of two valid addresses. -/
theorem batchEndpoint_valid_witness :
    (batchHandler unconfiguredWorld ["alice@corp.org", "bob@mailinator.com"]).totalEmails = 2 ∧
      (batchHandler unconfiguredWorld ["alice@corp.org", "bob@mailinator.com"]).failedChecks
        = (["alice@corp.org", "bob@mailinator.com"].filter
            (checkFails unconfiguredWorld)).length :=
  ⟨(batchEndpoint_valid sampleJoiEmail unconfiguredWorld ["alice@corp.org", "bob@mailinator.com"]
      (by decide) (by decide) (by decide)).2.1,
    (batchEndpoint_valid sampleJoiEmail unconfiguredWorld ["alice@corp.org", "bob@mailinator.com"]
      (by decide) (by decide) (by decide)).2.2.2.2.2.1⟩

/-! ## Properties of `performDnsAnalysis` -/

/-- C22. For every host name and every outcome of the A, MX and TXT lookups,
`performDnsAnalysis` emits the threat `dns_resolution_failed`, of severity
`high`, exactly when the A lookup fails; it emits no other threat, so failing
MX or TXT lookups alone produce none; and when the A lookup fails the result
is that single threat and no warning. -/
theorem performDnsAnalysis_threat_iff (lookups : DnsLookups) (hostname : String) :
    ((∃ t ∈ (performDnsAnalysis lookups hostname).threats, t.type = "dns_resolution_failed") ↔
        lookups.a = none) ∧
      ((performDnsAnalysis lookups hostname).threats = [] ↔ lookups.a ≠ none) ∧
      (∀ t ∈ (performDnsAnalysis lookups hostname).threats,
        t.type = "dns_resolution_failed" ∧ t.severity = "high") ∧
      (∀ aRecords : List String,
        (performDnsAnalysis ⟨some aRecords, none, none⟩ hostname).threats = []) ∧
      (performDnsAnalysis ⟨none, lookups.mx, lookups.txt⟩ hostname
        = ⟨[⟨"dns_resolution_failed", "high", "DNS resolution failed",
              "Could indicate malicious or non-existent domain"⟩], []⟩) := by
  refine ⟨?_, ?_, ?_, fun _ => rfl, rfl⟩
  · cases h : lookups.a <;> simp [performDnsAnalysis, h]
  · cases h : lookups.a <;> simp [performDnsAnalysis, h]
  · cases h : lookups.a <;> simp [performDnsAnalysis, h]

/-! ## Properties of `getThreatIntelligence` -/

/-- Safe Browsing gives at most its one finding. -/
theorem safeBrowsingFindings_types (googleSafeBrowsing : Outcome SafeBrowsingResult) :
    ((safeBrowsingFindings googleSafeBrowsing).map fun f => (f.type, f.severity)).Sublist
      [("google_safe_browsing", "high")] := by
  unfold safeBrowsingFindings
  cases googleSafeBrowsing
  · simp only
    split <;> simp
  · simp

/-- VirusTotal gives at most its one finding. -/
theorem virusTotalFindings_types (virusTotal : Outcome VirusTotalResult) :
    ((virusTotalFindings virusTotal).map fun f => (f.type, f.severity)).Sublist
      [("virus_total", "high")] := by
  unfold virusTotalFindings
  cases virusTotal
  · simp only
    split <;> simp
  · simp

/-- PhishTank gives at most its one finding. -/
theorem phishTankFindings_types (phishTank : Outcome PhishTankResult) :
    ((phishTankFindings phishTank).map fun f => (f.type, f.severity)).Sublist
      [("phishtank", "critical")] := by
  unfold phishTankFindings
  cases phishTank
  · simp only
    split <;> simp
  · simp

/-- URLVoid gives at most its one finding. -/
theorem urlVoidFindings_types (urlVoid : Outcome UrlVoidResult) :
    ((urlVoidFindings urlVoid).map fun f => (f.type, f.severity)).Sublist
      [("urlvoid_reputation", "medium")] := by
  unfold urlVoidFindings
  cases urlVoid
  · simp only
    split <;> simp
  · simp

/-- The types and severities of the findings of threat intelligence, in the
order the findings are listed, form a sublist of the four vendor entries. -/
theorem threatIntelFindings_types (googleSafeBrowsing : Outcome SafeBrowsingResult)
    (virusTotal : Outcome VirusTotalResult) (urlVoid : Outcome UrlVoidResult)
    (phishTank : Outcome PhishTankResult) :
    (((threatIntelFindings googleSafeBrowsing virusTotal urlVoid phishTank).threats ++
        (threatIntelFindings googleSafeBrowsing virusTotal urlVoid phishTank).warnings).map
          fun f => (f.type, f.severity)).Sublist
      [("google_safe_browsing", "high"), ("virus_total", "high"), ("phishtank", "critical"),
       ("urlvoid_reputation", "medium")] := by
  unfold threatIntelFindings
  simp only [List.map_append, List.append_assoc]
  exact (safeBrowsingFindings_types googleSafeBrowsing).append
    ((virusTotalFindings_types virusTotal).append
      ((phishTankFindings_types phishTank).append (urlVoidFindings_types urlVoid)))

/-- C23. For every combination of settled vendor results,
`getThreatIntelligence` builds at most one finding per vendor, at most four
in all, each with the severity fixed for its vendor: a critical threat
`phishtank` exactly for a PhishTank hit, a high threat `virus_total` exactly
for a malicious count above 0, a high threat `google_safe_browsing` exactly
for a Safe Browsing match, a medium warning `urlvoid_reputation` exactly for
a reputation below 50; a rejected lookup gives no finding. -/
theorem threatIntelFindings_per_vendor (googleSafeBrowsing : Outcome SafeBrowsingResult)
    (virusTotal : Outcome VirusTotalResult) (urlVoid : Outcome UrlVoidResult)
    (phishTank : Outcome PhishTankResult) :
    (threatIntelFindings googleSafeBrowsing virusTotal urlVoid phishTank).threats.length +
        (threatIntelFindings googleSafeBrowsing virusTotal urlVoid phishTank).warnings.length
        ≤ 4 ∧
      (((threatIntelFindings googleSafeBrowsing virusTotal urlVoid phishTank).threats ++
          (threatIntelFindings googleSafeBrowsing virusTotal urlVoid phishTank).warnings).map
            fun f => f.type).Nodup ∧
      (∀ f ∈ (threatIntelFindings googleSafeBrowsing virusTotal urlVoid phishTank).threats ++
          (threatIntelFindings googleSafeBrowsing virusTotal urlVoid phishTank).warnings,
        (f.type = "phishtank" ∧ f.severity = "critical") ∨
          (f.type = "virus_total" ∧ f.severity = "high") ∨
          (f.type = "google_safe_browsing" ∧ f.severity = "high") ∨
          (f.type = "urlvoid_reputation" ∧ f.severity = "medium")) ∧
      ((∃ f ∈ (threatIntelFindings googleSafeBrowsing virusTotal urlVoid phishTank).threats,
          f.type = "phishtank") ↔
        ∃ value, phishTank = .fulfilled value ∧ value.inDatabase = true) ∧
      ((∃ f ∈ (threatIntelFindings googleSafeBrowsing virusTotal urlVoid phishTank).threats,
          f.type = "virus_total") ↔
        ∃ value, virusTotal = .fulfilled value ∧ value.malicious > 0) ∧
      ((∃ f ∈ (threatIntelFindings googleSafeBrowsing virusTotal urlVoid phishTank).threats,
          f.type = "google_safe_browsing") ↔
        ∃ value, googleSafeBrowsing = .fulfilled value ∧ value.safe = false) ∧
      ((∃ f ∈ (threatIntelFindings googleSafeBrowsing virusTotal urlVoid phishTank).warnings,
          f.type = "urlvoid_reputation") ↔
        ∃ value, urlVoid = .fulfilled value ∧ value.reputation < 50) ∧
      (∀ a b c d : String,
        threatIntelFindings (.rejected a) (.rejected b) (.rejected c) (.rejected d)
          = ⟨[], []⟩) := by
  have hty := threatIntelFindings_types googleSafeBrowsing virusTotal urlVoid phishTank
  refine ⟨?_, ?_, ?_, ?_, ?_, ?_, ?_, fun _ _ _ _ => rfl⟩
  · have hl := hty.length_le
    simp only [List.length_map, List.length_append, List.length_cons, List.length_nil] at hl
    omega
  · have hsub := hty.map Prod.fst
    rw [List.map_map] at hsub
    exact hsub.nodup (by decide)
  · intro f hf
    have hmem : (f.type, f.severity) ∈
        [("google_safe_browsing", "high"), ("virus_total", "high"), ("phishtank", "critical"),
         ("urlvoid_reputation", "medium")] :=
      hty.subset (List.mem_map.mpr ⟨f, hf, rfl⟩)
    simp only [List.mem_cons, Prod.mk.injEq, List.mem_singleton, List.not_mem_nil,
      or_false] at hmem
    tauto
  · have h1 : ∀ f ∈ safeBrowsingFindings googleSafeBrowsing, f.type ≠ "phishtank" := by
      intro f hf
      have := (safeBrowsingFindings_types googleSafeBrowsing).subset
        (List.mem_map.mpr ⟨f, hf, rfl⟩)
      simp only [List.mem_singleton, Prod.mk.injEq] at this
      rw [this.1]
      decide
    have h2 : ∀ f ∈ virusTotalFindings virusTotal, f.type ≠ "phishtank" := by
      intro f hf
      have := (virusTotalFindings_types virusTotal).subset (List.mem_map.mpr ⟨f, hf, rfl⟩)
      simp only [List.mem_singleton, Prod.mk.injEq] at this
      rw [this.1]
      decide
    simp only [threatIntelFindings, List.mem_append]
    constructor
    · rintro ⟨f, (hf | hf) | hf, hty⟩
      · exact absurd hty (h1 f hf)
      · exact absurd hty (h2 f hf)
      · cases phishTank with
        | fulfilled value =>
            refine ⟨value, rfl, ?_⟩
            cases hv : value.inDatabase
            · simp [phishTankFindings, hv] at hf
            · rfl
        | rejected reason => simp [phishTankFindings] at hf
    · rintro ⟨value, rfl, hv⟩
      exact ⟨⟨"phishtank", "critical", "Found in PhishTank database",
        "Community-verified phishing attempt"⟩, Or.inr (by simp [phishTankFindings, hv]), rfl⟩
  · have h1 : ∀ f ∈ safeBrowsingFindings googleSafeBrowsing, f.type ≠ "virus_total" := by
      intro f hf
      have := (safeBrowsingFindings_types googleSafeBrowsing).subset
        (List.mem_map.mpr ⟨f, hf, rfl⟩)
      simp only [List.mem_singleton, Prod.mk.injEq] at this
      rw [this.1]
      decide
    have h2 : ∀ f ∈ phishTankFindings phishTank, f.type ≠ "virus_total" := by
      intro f hf
      have := (phishTankFindings_types phishTank).subset (List.mem_map.mpr ⟨f, hf, rfl⟩)
      simp only [List.mem_singleton, Prod.mk.injEq] at this
      rw [this.1]
      decide
    simp only [threatIntelFindings, List.mem_append]
    constructor
    · rintro ⟨f, (hf | hf) | hf, hty⟩
      · exact absurd hty (h1 f hf)
      · cases virusTotal with
        | fulfilled value =>
            refine ⟨value, rfl, ?_⟩
            by_cases hv : value.malicious > 0
            · exact hv
            · simp [virusTotalFindings, hv] at hf
        | rejected reason => simp [virusTotalFindings] at hf
      · exact absurd hty (h2 f hf)
    · rintro ⟨value, rfl, hv⟩
      exact ⟨⟨"virus_total", "high",
        "Flagged by " ++ toString value.malicious ++ " security vendors",
        "Multiple security vendors have flagged this URL as malicious"⟩,
        Or.inl (Or.inr (by simp [virusTotalFindings, hv])), rfl⟩
  · have h1 : ∀ f ∈ virusTotalFindings virusTotal, f.type ≠ "google_safe_browsing" := by
      intro f hf
      have := (virusTotalFindings_types virusTotal).subset (List.mem_map.mpr ⟨f, hf, rfl⟩)
      simp only [List.mem_singleton, Prod.mk.injEq] at this
      rw [this.1]
      decide
    have h2 : ∀ f ∈ phishTankFindings phishTank, f.type ≠ "google_safe_browsing" := by
      intro f hf
      have := (phishTankFindings_types phishTank).subset (List.mem_map.mpr ⟨f, hf, rfl⟩)
      simp only [List.mem_singleton, Prod.mk.injEq] at this
      rw [this.1]
      decide
    simp only [threatIntelFindings, List.mem_append]
    constructor
    · rintro ⟨f, (hf | hf) | hf, hty⟩
      · cases googleSafeBrowsing with
        | fulfilled value =>
            refine ⟨value, rfl, ?_⟩
            cases hv : value.safe
            · rfl
            · simp [safeBrowsingFindings, hv] at hf
        | rejected reason => simp [safeBrowsingFindings] at hf
      · exact absurd hty (h1 f hf)
      · exact absurd hty (h2 f hf)
    · rintro ⟨value, rfl, hv⟩
      exact ⟨⟨"google_safe_browsing", "high", "Flagged by Google Safe Browsing",
        ", ".intercalate value.threats⟩,
        Or.inl (Or.inl (by simp [safeBrowsingFindings, hv])), rfl⟩
  · simp only [threatIntelFindings]
    constructor
    · rintro ⟨f, hf, -⟩
      cases urlVoid with
      | fulfilled value =>
          refine ⟨value, rfl, ?_⟩
          by_cases hv : value.reputation < 50
          · exact hv
          · simp [urlVoidFindings, hv] at hf
      | rejected reason => simp [urlVoidFindings] at hf
    · rintro ⟨value, rfl, hv⟩
      exact ⟨⟨"urlvoid_reputation", "medium", "Low domain reputation score",
        "Domain reputation: " ++ toString value.reputation ++ "/100"⟩,
        by simp [urlVoidFindings, hv], rfl⟩

/-! ## Lookups without credentials -/

/-- C24, refuted as stated: without a RapidAPI key the BreachDirectory lookup
is not silent; it contributes the warning `api_unavailable`, which is in the
verdict. -/
theorem checkBreachDirectory_unconfigured_warns :
    (checkBreachDirectory unconfiguredWorld "alice@corp.org").warnings
        = [⟨"api_unavailable", "low", "BreachDirectory API not configured",
            "RapidAPI key not set in environment variables"⟩] ∧
      (emailVerdict unconfiguredWorld "alice@corp.org").warnings
        = [⟨"api_unavailable", "low", "BreachDirectory API not configured",
            "RapidAPI key not set in environment variables"⟩] := by
  decide

/-- C24, amended. Without their keys the lookups of Google Safe Browsing,
VirusTotal and URLVoid contribute no threat and no warning: threat
intelligence returns what it would return had the three lookups not been
made, and nothing at all unless PhishTank has a hit. Without its key the
BreachDirectory lookup contributes no breach and leaves the score of the
verdict as the reputation check alone gives it, but it does contribute one
warning, `api_unavailable` of severity `low`. -/
theorem unconfigured_lookups_neutral (v : Vendors) (w : EmailWorld) (url hostname email : String)
    (hg : truthy v.googleSafeBrowsingKey = false) (hv : truthy v.virusTotalKey = false)
    (hu : truthy v.urlVoidKey = false)
    (hb : truthy w.rapidApiKey = false ∨ w.rapidApiKey = some "your_rapidapi_key_here" ∨
      w.rapidApiKey = some "demo-key") :
    safeBrowsingFindings (.fulfilled (checkGoogleSafeBrowsing v url)) = [] ∧
      virusTotalFindings (.fulfilled (checkVirusTotal v url)) = [] ∧
      urlVoidFindings (.fulfilled (checkUrlVoid v hostname)) = [] ∧
      getThreatIntelligence v url hostname
        = ⟨phishTankFindings (.fulfilled (checkPhishTank v url)), []⟩ ∧
      ((checkPhishTank v url).inDatabase = false →
        getThreatIntelligence v url hostname = ⟨[], []⟩) ∧
      (checkBreachDirectory w email).breaches = [] ∧
      (checkBreachDirectory w email).riskScore = none ∧
      (checkBreachDirectory w email).warnings
        = [⟨"api_unavailable", "low", "BreachDirectory API not configured",
            "RapidAPI key not set in environment variables"⟩] ∧
      (emailVerdict w email).riskScore
        = (assembleEmailVerdict w email [.fulfilled (checkEmailReputation w email)]).riskScore ∧
      (emailVerdict w email).breaches
        = (assembleEmailVerdict w email [.fulfilled (checkEmailReputation w email)]).breaches := by
  have h1 : safeBrowsingFindings (.fulfilled (checkGoogleSafeBrowsing v url)) = [] := by
    simp [safeBrowsingFindings, checkGoogleSafeBrowsing, hg]
  have h2 : virusTotalFindings (.fulfilled (checkVirusTotal v url)) = [] := by
    simp [virusTotalFindings, checkVirusTotal, hv]
  have h3 : urlVoidFindings (.fulfilled (checkUrlVoid v hostname)) = [] := by
    simp [urlVoidFindings, checkUrlVoid, hu]
  have h4 : getThreatIntelligence v url hostname
      = ⟨phishTankFindings (.fulfilled (checkPhishTank v url)), []⟩ := by
    simp only [getThreatIntelligence, threatIntelFindings, h1, h2, h3, List.nil_append]
  have hdir : checkBreachDirectory w email
      = ⟨[], [⟨"api_unavailable", "low", "BreachDirectory API not configured",
          "RapidAPI key not set in environment variables"⟩], none⟩ := by
    unfold checkBreachDirectory
    rcases hb with hb | hb | hb <;> simp [hb]
  refine ⟨h1, h2, h3, h4, ?_, by rw [hdir], by rw [hdir], by rw [hdir], ?_, ?_⟩
  · intro hp
    rw [h4]
    simp [phishTankFindings, hp]
  · simp [emailVerdict, assembleEmailVerdict, collectStep, hdir]
  · simp [emailVerdict, assembleEmailVerdict, collectStep, hdir]

/-- C24 amended, at a deployment without any key. -/
theorem unconfigured_lookups_neutral_witness :
    getThreatIntelligence noKeyVendors "https://example.com/" "example.com"
        = ⟨phishTankFindings
            (.fulfilled (checkPhishTank noKeyVendors "https://example.com/")), []⟩ ∧
      (checkBreachDirectory unconfiguredWorld "alice@corp.org").breaches = [] :=
  ⟨(unconfigured_lookups_neutral noKeyVendors unconfiguredWorld "https://example.com/"
      "example.com" "alice@corp.org" (by decide) (by decide) (by decide)
      (Or.inl (by decide))).2.2.2.1,
    (unconfigured_lookups_neutral noKeyVendors unconfiguredWorld "https://example.com/"
      "example.com" "alice@corp.org" (by decide) (by decide) (by decide)
      (Or.inl (by decide))).2.2.2.2.2.1⟩

/-! ## Properties of `getDomainReputation` -/

/-- C25. For an argument that is `null`, `undefined`, not a string, or the
empty string, `getDomainReputation` returns no threats and exactly one
warning, of type `invalid_domain` and severity `low`. -/
theorem getDomainReputation_invalid :
    getDomainReputation .null
        = ⟨[], [⟨"invalid_domain", "low", "Invalid domain parameter",
            "Domain is null, undefined, or not a string"⟩]⟩ ∧
      getDomainReputation .undefined
        = ⟨[], [⟨"invalid_domain", "low", "Invalid domain parameter",
            "Domain is null, undefined, or not a string"⟩]⟩ ∧
      getDomainReputation .other
        = ⟨[], [⟨"invalid_domain", "low", "Invalid domain parameter",
            "Domain is null, undefined, or not a string"⟩]⟩ ∧
      getDomainReputation (.string "")
        = ⟨[], [⟨"invalid_domain", "low", "Invalid domain parameter",
            "Domain is null, undefined, or not a string"⟩]⟩ ∧
      (∀ domain : JsValue, (∀ s, s ≠ "" → domain ≠ .string s) →
        (getDomainReputation domain).threats = [] ∧
          (getDomainReputation domain).warnings.length = 1 ∧
          ∀ f ∈ (getDomainReputation domain).warnings,
            f.type = "invalid_domain" ∧ f.severity = "low") := by
  refine ⟨rfl, rfl, rfl, rfl, ?_⟩
  intro domain h
  cases domain with
  | null => exact ⟨rfl, rfl, by simp [getDomainReputation]⟩
  | undefined => exact ⟨rfl, rfl, by simp [getDomainReputation]⟩
  | other => exact ⟨rfl, rfl, by simp [getDomainReputation]⟩
  | string s =>
      by_cases hs : s = ""
      · subst hs
        exact ⟨rfl, rfl, by simp [getDomainReputation]⟩
      · exact absurd rfl (h s hs)

/-- C25, at the four kinds of invalid argument. -/
theorem getDomainReputation_invalid_witness :
    (getDomainReputation .null).warnings.length = 1 ∧
      (getDomainReputation (.string "")).warnings.length = 1 :=
  ⟨(getDomainReputation_invalid.2.2.2.2 .null (fun _ _ h => by cases h)).2.1,
    (getDomainReputation_invalid.2.2.2.2 (.string "")
      (fun s hs h => hs (JsValue.string.inj h).symm)).2.1⟩

/-! ## The URLVoid reputation -/

/-- C27, at the failing input. URLVoid reports the reputation 0; `checkUrlVoid`
takes the 0 for a missing value and resolves to the reputation 50, so threat
intelligence has no `urlvoid_reputation` warning. A reported reputation of
10 gives the warning. -/
theorem getThreatIntelligence_reputation_zero :
    worstReputationVendors.urlVoid "phish.example" = some (some 0) ∧
      checkUrlVoid worstReputationVendors "phish.example" = ⟨50⟩ ∧
      (getThreatIntelligence worstReputationVendors "https://phish.example/"
        "phish.example").warnings = [] ∧
      ((getThreatIntelligence lowReputationVendors "https://phish.example/"
        "phish.example").warnings.map fun f => (f.type, f.severity))
        = [("urlvoid_reputation", "medium")] := by
  decide

/-! ## Monotonicity and order-independence of the score -/

/-- The level never decreases when the score grows. -/
theorem determineRiskLevel_mono (a b : Int) (h : a ≤ b) :
    levelRank (determineRiskLevel a) ≤ levelRank (determineRiskLevel b) := by
  unfold determineRiskLevel
  by_cases a50 : a ≥ 50 <;> by_cases a30 : a ≥ 30 <;> by_cases a15 : a ≥ 15 <;>
    by_cases a5 : a ≥ 5 <;> by_cases b50 : b ≥ 50 <;> by_cases b30 : b ≥ 30 <;>
    by_cases b15 : b ≥ 15 <;> by_cases b5 : b ≥ 5 <;>
    simp only [a50, a30, a15, a5, b50, b30, b15, b5, if_true, if_false] <;>
    first
      | decide
      | omega

/-- C30. `calculateRiskScore` is monotone and order-independent: an extra
threat or an extra warning never lowers the score, permuting the threats or
the warnings does not change it, and the level of the score never moves down
when a finding is added. -/
theorem calculateRiskScore_monotone (threats warnings permutedThreats permutedWarnings :
    List Finding) (f : Finding) (hT : threats.Perm permutedThreats)
    (hW : warnings.Perm permutedWarnings) :
    calculateRiskScore threats warnings ≤ calculateRiskScore (threats ++ [f]) warnings ∧
      calculateRiskScore threats warnings ≤ calculateRiskScore threats (warnings ++ [f]) ∧
      calculateRiskScore permutedThreats permutedWarnings
        = calculateRiskScore threats warnings ∧
      levelRank (determineRiskLevel (calculateRiskScore threats warnings))
        ≤ levelRank (determineRiskLevel (calculateRiskScore (threats ++ [f]) warnings)) ∧
      levelRank (determineRiskLevel (calculateRiskScore threats warnings))
        ≤ levelRank (determineRiskLevel (calculateRiskScore threats (warnings ++ [f]))) := by
  have h1 : calculateRiskScore threats warnings ≤ calculateRiskScore (threats ++ [f]) warnings := by
    unfold calculateRiskScore
    rw [rawRiskScore_eq_sum, rawRiskScore_eq_sum]
    simp only [List.map_append, List.sum_append, List.map_cons, List.map_nil, List.sum_cons,
      List.sum_nil]
    omega
  have h2 : calculateRiskScore threats warnings ≤ calculateRiskScore threats (warnings ++ [f]) := by
    unfold calculateRiskScore
    rw [rawRiskScore_eq_sum, rawRiskScore_eq_sum]
    simp only [List.map_append, List.sum_append, List.map_cons, List.map_nil, List.sum_cons,
      List.sum_nil]
    omega
  refine ⟨h1, h2, ?_, ?_, ?_⟩
  · unfold calculateRiskScore
    rw [rawRiskScore_eq_sum, rawRiskScore_eq_sum,
      (hT.map fun t => threatBase t.severity + threatBonus t.type).sum_eq,
      (hW.map fun w => warnBase w.severity + warnBonus w.type).sum_eq]
  · exact determineRiskLevel_mono _ _ (by exact_mod_cast h1)
  · exact determineRiskLevel_mono _ _ (by exact_mod_cast h2)

/-- C30, at two threats swapped and a warning added. -/
theorem calculateRiskScore_monotone_witness :
    calculateRiskScore [⟨"phishtank", "critical", "", ""⟩, ⟨"raw_ip_address", "high", "", ""⟩] []
      = calculateRiskScore
          [⟨"raw_ip_address", "high", "", ""⟩, ⟨"phishtank", "critical", "", ""⟩] [] :=
  (calculateRiskScore_monotone
    [⟨"raw_ip_address", "high", "", ""⟩, ⟨"phishtank", "critical", "", ""⟩] []
    [⟨"phishtank", "critical", "", ""⟩, ⟨"raw_ip_address", "high", "", ""⟩] []
    ⟨"suspicious_tld", "medium", "", ""⟩ (List.Perm.swap _ _ _) (List.Perm.refl _)).2.2.1

/-! ## Verdicts that cannot be safe -/

/-- Two different findings of a list both contribute to the sum of the
list. -/
theorem two_contributions_le_sum (f : Finding → Nat) (x y : Finding) (l : List Finding)
    (hx : x ∈ l) (hy : y ∈ l) (hne : x ≠ y) : f x + f y ≤ (l.map f).sum := by
  induction l with
  | nil => cases hx
  | cons z rest ih =>
      simp only [List.map_cons, List.sum_cons]
      rcases List.mem_cons.mp hx with rfl | hx'
      · rcases List.mem_cons.mp hy with rfl | hy'
        · exact absurd rfl hne
        · have := contribution_le_sum f y rest hy'
          omega
      · rcases List.mem_cons.mp hy with rfl | hy'
        · have := contribution_le_sum f x rest hx'
          omega
        · have := ih hx' hy'
          omega

/-- Two different warnings of a scored list add their contributions to the
score, up to the cap. -/
theorem calculateRiskScore_ge_of_two_warnings (threats warnings : List Finding)
    (x y : Finding) (hx : x ∈ warnings) (hy : y ∈ warnings) (hne : x ≠ y) (n : Nat)
    (hn : n ≤ (warnBase x.severity + warnBonus x.type) + (warnBase y.severity + warnBonus y.type))
    (hcap : n ≤ 100) : n ≤ calculateRiskScore threats warnings := by
  have h := two_contributions_le_sum (fun w => warnBase w.severity + warnBonus w.type) x y
    warnings hx hy hne
  unfold calculateRiskScore
  rw [rawRiskScore_eq_sum]
  simp only at h
  omega

/-- From a score of 15 the level is `medium` or worse, hence neither `safe`
nor `low`. -/
theorem determineRiskLevel_of_ge (score : Int) (h : 15 ≤ score) :
    (determineRiskLevel score = "medium" ∨ determineRiskLevel score = "high" ∨
        determineRiskLevel score = "critical") ∧
      (determineRiskLevel score == "safe" || determineRiskLevel score == "low") = false := by
  unfold determineRiskLevel
  by_cases h50 : score ≥ 50
  · simp only [h50, if_true]
    decide
  · by_cases h30 : score ≥ 30
    · simp only [h50, h30, if_true, if_false]
      decide
    · have h15 : score ≥ 15 := h
      simp only [h50, h30, h15, if_true, if_false]
      decide

/-- A verdict outside the whitelist whose score is at least 15 is of level
`medium` or worse and not safe. -/
theorem scanParsed_unsafe_of_ge (w : World) (options : Options) (n : String) (u : URL)
    (hw : (scanParsed w options n u).details.basicAnalysis.whitelisted = false)
    (hscore : 15 ≤ calculateRiskScore (scanParsed w options n u).threats
      (scanParsed w options n u).warnings) :
    15 ≤ (scanParsed w options n u).riskScore ∧
      (scanParsed w options n u).safe = false ∧
      ((scanParsed w options n u).riskLevel = "medium" ∨
        (scanParsed w options n u).riskLevel = "high" ∨
        (scanParsed w options n u).riskLevel = "critical") := by
  have hl := determineRiskLevel_of_ge
    (calculateRiskScore (scanParsed w options n u).threats (scanParsed w options n u).warnings)
    (by exact_mod_cast hscore)
  simp only [scanParsed] at hw hscore hl ⊢
  simp only [hw, Bool.false_eq_true, if_false]
  exact ⟨hscore, hl.2, hl.1⟩

/-- A string that holds a run of at least `n` characters of a class passes
the test of the unanchored pattern `X{n,}`. -/
theorem test_atLeast_of_run (n : Nat) (cls : Char → Bool) (s : String)
    (pre run post : List Char) (hs : s.toList = pre ++ run ++ post) (hlen : n ≤ run.length)
    (hcls : ∀ c ∈ run, cls c = true) : (unanchored [atLeast n cls]).test s = true := by
  unfold Pattern.test unanchored
  simp only [Bool.false_eq_true, if_false, List.any_eq_true]
  refine ⟨run ++ post, (List.mem_tails _ _).mpr ⟨pre, by rw [hs, List.append_assoc]⟩, ?_⟩
  rw [matchHere_cons_iff]
  refine ⟨run, post, rfl, ?_, hcls, by simp [matchHere]⟩
  simp [atLeast, Atom.allows, hlen]

/-- C29. For every non-whitelisted URL whose host name holds a run of 10 or
more lower-case letters, basic analysis emits both a `random_elements` and a
`phishing_pattern` warning, and the verdict has a score of at least 19, a
level of `medium` or worse and `safe = false`, whatever the scheme and
whatever the other checkers report. -/
theorem scanUrlComprehensive_long_word (w : World) (url : String) (options : Options)
    (r : ScanResult) (pre run post : List Char)
    (h : scanUrlComprehensive w url options = .ok r)
    (hw : r.details.basicAnalysis.whitelisted = false)
    (hrun : r.hostname.toList = pre ++ run ++ post) (hlen : 10 ≤ run.length)
    (hlower : ∀ c ∈ run, lower c = true) :
    (∃ f ∈ r.details.basicAnalysis.warnings, f.type = "random_elements") ∧
      (∃ f ∈ r.details.basicAnalysis.warnings, f.type = "phishing_pattern") ∧
      19 ≤ r.riskScore ∧ r.safe = false ∧
      (r.riskLevel = "medium" ∨ r.riskLevel = "high" ∨ r.riskLevel = "critical") := by
  obtain ⟨n, u, -, -, rfl⟩ := scanUrlComprehensive_ok w url options r h
  have hnot : isWhitelisted (toLowerCase u.hostname) (w.getDomain (toLowerCase u.hostname))
      (w.getSubdomain (toLowerCase u.hostname)) = false := by
    have := scanParsed_whitelisted w options n u
    rw [hw] at this
    exact this.symm
  have hr : (unanchored [atLeast 8 lower]).test (toLowerCase u.hostname) = true :=
    test_atLeast_of_run 8 lower _ pre run post hrun (by omega) hlower
  have hp : (unanchored [atLeast 10 lower]).test (toLowerCase u.hostname) = true :=
    test_atLeast_of_run 10 lower _ pre run post hrun hlen hlower
  have hpa : phishingPatterns.any (fun pattern => pattern.test (toLowerCase u.hostname)) = true := by
    simp [phishingPatterns, hp]
  have hbasic : (performBasicAnalysis w.getPublicSuffix u (toLowerCase u.hostname)
      (w.getDomain (toLowerCase u.hostname)) (w.getSubdomain (toLowerCase u.hostname))).warnings
      = basicWarnings (w.getPublicSuffix (toLowerCase u.hostname)) u.pathname
          (toLowerCase u.hostname) (w.getSubdomain (toLowerCase u.hostname)) := by
    simp [performBasicAnalysis, hnot]
  have hm1 : (⟨"random_elements", "medium", "Domain contains random numbers or long strings",
      "Random elements can indicate generated phishing domains"⟩ : Finding)
      ∈ basicWarnings (w.getPublicSuffix (toLowerCase u.hostname)) u.pathname
          (toLowerCase u.hostname) (w.getSubdomain (toLowerCase u.hostname)) := by
    unfold basicWarnings
    simp [hr]
  have hm2 : (⟨"phishing_pattern", "medium", "Domain matches common phishing patterns",
      "Domain structure follows known phishing domain generation patterns"⟩ : Finding)
      ∈ basicWarnings (w.getPublicSuffix (toLowerCase u.hostname)) u.pathname
          (toLowerCase u.hostname) (w.getSubdomain (toLowerCase u.hostname)) := by
    unfold basicWarnings
    simp [hpa]
  have hscore : 19 ≤ calculateRiskScore (scanParsed w options n u).threats
      (scanParsed w options n u).warnings := by
    refine calculateRiskScore_ge_of_two_warnings _ _
      ⟨"random_elements", "medium", "Domain contains random numbers or long strings",
        "Random elements can indicate generated phishing domains"⟩
      ⟨"phishing_pattern", "medium", "Domain matches common phishing patterns",
        "Domain structure follows known phishing domain generation patterns"⟩
      ?_ ?_ ?_ 19 (by decide) (by decide)
    · simp only [scanParsed, hbasic, List.append_assoc]
      exact List.mem_append_left _ hm1
    · simp only [scanParsed, hbasic, List.append_assoc]
      exact List.mem_append_left _ hm2
    · decide
  have hun := scanParsed_unsafe_of_ge w options n u hw (by omega)
  refine ⟨⟨⟨"random_elements", "medium", "Domain contains random numbers or long strings",
      "Random elements can indicate generated phishing domains"⟩, ?_, rfl⟩,
    ⟨⟨"phishing_pattern", "medium", "Domain matches common phishing patterns",
      "Domain structure follows known phishing domain generation patterns"⟩, ?_, rfl⟩,
    ?_, hun.2.1, hun.2.2⟩
  · simp only [scanParsed, hbasic]
    exact hm1
  · simp only [scanParsed, hbasic]
    exact hm2
  · simp only [scanParsed] at hw hscore ⊢
    simp only [hw, Bool.false_eq_true, if_false]
    exact hscore

/-- C29, at `https://stackoverflow.com/` with every other checker silent. -/
theorem scanUrlComprehensive_long_word_witness :
    scanUrlComprehensive overflowWorld "https://stackoverflow.com/" {}
        = .ok (scanParsed overflowWorld {} "https://stackoverflow.com/"
            ⟨"https://stackoverflow.com/", "https:", "stackoverflow.com", "/"⟩) ∧
      19 ≤ (scanParsed overflowWorld {} "https://stackoverflow.com/"
        ⟨"https://stackoverflow.com/", "https:", "stackoverflow.com", "/"⟩).riskScore ∧
      (scanParsed overflowWorld {} "https://stackoverflow.com/"
        ⟨"https://stackoverflow.com/", "https:", "stackoverflow.com", "/"⟩).safe = false :=
  ⟨by rfl,
    (scanUrlComprehensive_long_word overflowWorld "https://stackoverflow.com/" {} _ []
      "stackoverflow".toList ".com".toList (by rfl) (by decide) (by decide) (by decide)
      (by decide)).2.2.1,
    (scanUrlComprehensive_long_word overflowWorld "https://stackoverflow.com/" {} _ []
      "stackoverflow".toList ".com".toList (by rfl) (by decide) (by decide) (by decide)
      (by decide)).2.2.2.1⟩

/-- A threat of severity `high` in the threats of a verdict outside the
whitelist makes the verdict unsafe. -/
theorem scanParsed_unsafe_of_high (w : World) (options : Options) (n : String) (u : URL)
    (t : Finding) (hw : (scanParsed w options n u).details.basicAnalysis.whitelisted = false)
    (ht : t ∈ (scanParsed w options n u).threats) (hs : t.severity = "high") :
    (scanParsed w options n u).safe = false ∧
      ((scanParsed w options n u).riskLevel = "medium" ∨
        (scanParsed w options n u).riskLevel = "high" ∨
        (scanParsed w options n u).riskLevel = "critical") := by
  have h25 := calculateRiskScore_ge_of_high (scanParsed w options n u).threats
    (scanParsed w options n u).warnings t ht hs
  exact (scanParsed_unsafe_of_ge w options n u hw (by omega)).2

/-- The reputation check flags a domain whose last label is a suspicious
top-level domain of basic analysis. -/
theorem getDomainReputation_suspicious_tld (domain : String)
    (h : lastLabel domain ∈ suspiciousTlds) :
    (⟨"domain_heuristics", "medium", "Domain shows suspicious patterns",
        ", ".intercalate (heuristicReasons domain)⟩ : Finding)
      ∈ (getDomainReputation (.string domain)).warnings := by
  have hsub : ∀ t ∈ suspiciousTlds, t ∈ reputationSuspiciousTlds := by decide
  have hne : domain ≠ "" := by
    rintro rfl
    exact absurd h (by decide)
  have hc : reputationSuspiciousTlds.contains (lastLabel domain) = true := by
    simp only [List.contains, List.elem_eq_mem, decide_eq_true_eq]
    exact hsub _ h
  have hlen : (heuristicReasons domain).length > 0 := by
    unfold heuristicReasons
    simp only [hc, if_true, List.length_append, List.length_cons, List.length_nil]
    omega
  simp [getDomainReputation, hne, hlen]

/-- The findings of basic analysis are findings of the verdict, and with
`includeThreatIntel` so are the warnings of the reputation check. -/
theorem scanParsed_mem (w : World) (options : Options) (n : String) (u : URL) :
    (∀ f ∈ (scanParsed w options n u).details.basicAnalysis.threats,
        f ∈ (scanParsed w options n u).threats) ∧
      (∀ f ∈ (scanParsed w options n u).details.basicAnalysis.warnings,
        f ∈ (scanParsed w options n u).warnings) ∧
      (options.includeThreatIntel = true →
        ∀ f ∈ (w.getDomainReputation (scanParsed w options n u).domain).warnings,
          f ∈ (scanParsed w options n u).warnings) := by
  refine ⟨?_, ?_, ?_⟩
  · intro f hf
    simp only [scanParsed, List.append_assoc] at hf ⊢
    exact List.mem_append_left _ hf
  · intro f hf
    simp only [scanParsed, List.append_assoc] at hf ⊢
    exact List.mem_append_left _ hf
  · intro hintel f hf
    simp only [scanParsed, hintel, if_true, optionalWarnings, List.append_assoc] at hf ⊢
    exact List.mem_append_right _ (List.mem_append_right _ (List.mem_append_left _ hf))

/-- The findings of basic analysis outside the whitelist. -/
theorem scanParsed_basic (w : World) (options : Options) (n : String) (u : URL)
    (hw : (scanParsed w options n u).details.basicAnalysis.whitelisted = false) :
    (scanParsed w options n u).details.basicAnalysis.threats
        = basicThreats u.protocol (scanParsed w options n u).hostname ∧
      (scanParsed w options n u).details.basicAnalysis.warnings
        = basicWarnings (w.getPublicSuffix (scanParsed w options n u).hostname) u.pathname
            (scanParsed w options n u).hostname (scanParsed w options n u).subdomain := by
  have hnot := scanParsed_whitelisted w options n u
  rw [hw] at hnot
  simp only [scanParsed] at hnot ⊢
  simp [performBasicAnalysis, ← hnot]

/-- C26, refuted as stated: `https://tk./` is not whitelisted and its public
suffix `tk` is in the suspicious-TLD list, yet with `includeThreatIntel` and
silent DNS and vendors its verdict is safe. Basic analysis gives the one
warning `suspicious_tld` (8 + 5); the reputation check receives `tk.`, whose
last label after the trailing dot is empty, and gives nothing; the score is
13 and the level `low`. -/
theorem scanUrlComprehensive_trailing_dot_safe :
    scanUrlComprehensive trailingDotWorld "https://tk./" {}
        = .ok (scanParsed trailingDotWorld {} "https://tk./"
            ⟨"https://tk./", "https:", "tk.", "/"⟩) ∧
      ({} : Options).includeThreatIntel = true ∧
      trailingDotWorld.getPublicSuffix "tk." = some "tk" ∧ "tk" ∈ suspiciousTlds ∧
      (scanParsed trailingDotWorld {} "https://tk./"
        ⟨"https://tk./", "https:", "tk.", "/"⟩).details.basicAnalysis.whitelisted = false ∧
      (scanParsed trailingDotWorld {} "https://tk./"
        ⟨"https://tk./", "https:", "tk.", "/"⟩).domain = "tk." ∧
      ((scanParsed trailingDotWorld {} "https://tk./"
        ⟨"https://tk./", "https:", "tk.", "/"⟩).warnings.map fun f => f.type)
        = ["suspicious_tld"] ∧
      (scanParsed trailingDotWorld {} "https://tk./"
        ⟨"https://tk./", "https:", "tk.", "/"⟩).threats = [] ∧
      (scanParsed trailingDotWorld {} "https://tk./"
        ⟨"https://tk./", "https:", "tk.", "/"⟩).riskScore = 13 ∧
      (scanParsed trailingDotWorld {} "https://tk./"
        ⟨"https://tk./", "https:", "tk.", "/"⟩).riskLevel = "low" ∧
      (scanParsed trailingDotWorld {} "https://tk./"
        ⟨"https://tk./", "https:", "tk.", "/"⟩).safe = true :=
  ⟨by rfl, by decide⟩

/-- C26, amended. With `includeThreatIntel`, every non-whitelisted URL that
uses the scheme `http`, or whose host name is a raw IPv4 literal, or whose
host name contains `xn--`, or whose public suffix is in the suspicious-TLD
list and is the last dot-separated label of the domain handed to the
reputation check (the registrable domain, or the host name when there is
none), gets a verdict that is not safe, of level `medium` or worse, whatever
DNS and the vendors return. The reputation check is the one of
`domainReputation.js`. -/
theorem scanUrlComprehensive_unsafe_signals (w : World) (url : String) (options : Options)
    (r : ScanResult) (normalizedUrl : String) (urlObj : URL)
    (hn : normalizeUrl w.parseURL url = some normalizedUrl)
    (hu : w.parseURL normalizedUrl = some urlObj)
    (h : scanUrlComprehensive w url options = .ok r)
    (hintel : options.includeThreatIntel = true)
    (hw : r.details.basicAnalysis.whitelisted = false)
    (hsig : urlObj.protocol = "http:" ∨ isIpAddress r.hostname = true ∨
      includes r.hostname "xn--" = true ∨
      (∃ tld, w.getPublicSuffix r.hostname = some tld ∧ tld ∈ suspiciousTlds ∧
        lastLabel r.domain = tld ∧
        w.getDomainReputation r.domain = getDomainReputation (.string r.domain))) :
    r.safe = false ∧
      (r.riskLevel = "medium" ∨ r.riskLevel = "high" ∨ r.riskLevel = "critical") := by
  obtain ⟨n, u, hn', hu', rfl⟩ := scanUrlComprehensive_ok w url options r h
  rw [hn] at hn'
  obtain rfl : normalizedUrl = n := Option.some.inj hn'
  rw [hu] at hu'
  obtain rfl : urlObj = u := Option.some.inj hu'
  have hb := scanParsed_basic w options normalizedUrl urlObj hw
  have hmem := scanParsed_mem w options normalizedUrl urlObj
  rcases hsig with hp | hip | hpuny | ⟨tld, htld, hlist, hlast, hrep⟩
  · refine scanParsed_unsafe_of_high w options normalizedUrl urlObj noSslCertificate hw
      (hmem.1 _ ?_) rfl
    rw [hb.1, hp]
    exact noSslCertificate_mem_basicThreats _
  · refine scanParsed_unsafe_of_high w options normalizedUrl urlObj
      ⟨"raw_ip_address", "high", "URL uses raw IP address instead of domain name",
        "Phishers often use IP addresses to bypass domain-based security measures"⟩ hw
      (hmem.1 _ ?_) rfl
    rw [hb.1]
    unfold basicThreats
    simp [hip]
  · refine scanParsed_unsafe_of_high w options normalizedUrl urlObj
      ⟨"punycode_domain", "high", "Punycode domain detected",
        "Punycode can be used to create visually similar domains for phishing"⟩ hw
      (hmem.1 _ ?_) rfl
    rw [hb.1]
    unfold basicThreats
    simp [hpuny]
  · have hx : (⟨"suspicious_tld", "medium", "Suspicious top-level domain: ." ++ tld,
        "This TLD is commonly associated with malicious sites"⟩ : Finding)
        ∈ (scanParsed w options normalizedUrl urlObj).warnings := by
      refine hmem.2.1 _ ?_
      rw [hb.2, htld]
      unfold basicWarnings
      simp [hlist]
    have hy : (⟨"domain_heuristics", "medium", "Domain shows suspicious patterns",
        ", ".intercalate (heuristicReasons (scanParsed w options normalizedUrl urlObj).domain)⟩ :
          Finding)
        ∈ (scanParsed w options normalizedUrl urlObj).warnings := by
      refine hmem.2.2 hintel _ ?_
      rw [hrep]
      exact getDomainReputation_suspicious_tld _ (by rw [hlast]; exact hlist)
    have hscore := calculateRiskScore_ge_of_two_warnings
      (scanParsed w options normalizedUrl urlObj).threats
      (scanParsed w options normalizedUrl urlObj).warnings _ _ hx hy
      (by intro heq; injection heq with h1; exact absurd h1 (by decide)) 21
      (by simp [warnBase, warnBonus]) (by decide)
    exact (scanParsed_unsafe_of_ge w options normalizedUrl urlObj hw (by omega)).2

/-- C26 amended, at `https://shop.xyz`, whose only signal is the top-level
domain. -/
theorem scanUrlComprehensive_unsafe_signals_witness :
    scanUrlComprehensive shopWorld "https://shop.xyz" {}
        = .ok (scanParsed shopWorld {} "https://shop.xyz/"
            ⟨"https://shop.xyz/", "https:", "shop.xyz", "/"⟩) ∧
      (scanParsed shopWorld {} "https://shop.xyz/"
        ⟨"https://shop.xyz/", "https:", "shop.xyz", "/"⟩).safe = false :=
  ⟨by rfl,
    (scanUrlComprehensive_unsafe_signals shopWorld "https://shop.xyz" {} _ "https://shop.xyz/"
      ⟨"https://shop.xyz/", "https:", "shop.xyz", "/"⟩ (by rfl) (by rfl) (by rfl) (by rfl)
      (by decide)
      (Or.inr (Or.inr (Or.inr ⟨"xyz", by decide, by decide, by decide, by rfl⟩)))).1⟩

/-! ## The synthetic breach record -/

/-- The synthetic record of the reputation check scores 30 when the date
parser reads the date it carries as a day of a year at most 2 before the
current one. -/
theorem calculateBreachRiskScore_synthetic (w : EmailWorld) (domain : String)
    (breachDay : CalendarDate) (hiso : w.todayIso ≠ "")
    (hparse : w.parseDate w.todayIso = some breachDay)
    (hyear : w.today.year - breachDay.year ≤ 2) :
    calculateBreachRiskScore w.parseDate w.today
        (removeDuplicateBreaches
          [{ source := "EmailReputation"
             name := "High Risk Email Pattern"
             domain := domain
             breachDate := w.todayIso
             description := "Email matches multiple high-risk patterns"
             dataClasses := ["email", "pattern_analysis"]
             isVerified := false
             isFabricated := some false
             isSensitive := some false
             isRetired := some false
             isSpamList := some false }]) = 30 := by
  simp [calculateBreachRiskScore, removeDuplicateBreaches, removeDuplicateBreachesFrom,
    breachStep, flagSet, hiso, hparse, hyear]

/-- C28. For every valid address for which BreachDirectory contributes no
breach record, on a clock whose date of today parses to a day of the current
year or of one of the two before: if the reputation score is at least 50 the
synthetic record is the only breach and adds 30, so the verdict has a score
of at least 80 and the level `critical`; if it is below 50 there is no
breach, the score of the verdict is the reputation score and the level is
at most `medium`. -/
theorem checkEmailBreach_synthetic_breach (w : EmailWorld) (email : String)
    (breachDay : CalendarDate)
    (hvalid : isValidEmail email = true)
    (hn : (checkBreachDirectory w email).breaches = [])
    (hiso : w.todayIso ≠ "") (hparse : w.parseDate w.todayIso = some breachDay)
    (hyear : w.today.year - breachDay.year ≤ 2) :
    checkEmailBreach w email = .ok (emailVerdict w email) ∧
      (checkEmailReputation w email).riskScore = some (emailReputation w email).riskScore ∧
      (50 ≤ (emailReputation w email).riskScore →
        (emailVerdict w email).breaches = (checkEmailReputation w email).breaches ∧
          (emailVerdict w email).totalBreaches = 1 ∧
          calculateBreachRiskScore w.parseDate w.today (emailVerdict w email).breaches = 30 ∧
          (emailVerdict w email).riskScore
            = min (30 + (emailReputation w email).riskScore) 100 ∧
          80 ≤ (emailVerdict w email).riskScore ∧
          (emailVerdict w email).riskLevel = "critical") ∧
      ((emailReputation w email).riskScore < 50 →
        (emailVerdict w email).breaches = [] ∧
          (emailVerdict w email).riskScore = (emailReputation w email).riskScore ∧
          ((emailVerdict w email).riskLevel = "safe" ∨ (emailVerdict w email).riskLevel = "low" ∨
            (emailVerdict w email).riskLevel = "medium")) := by
  have hfirst : (checkBreachDirectory w email).riskScore = none := by
    unfold checkBreachDirectory
    split
    · rfl
    · split <;> rfl
  refine ⟨checkEmailBreach_of_valid w email hvalid, rfl, ?_, ?_⟩
  · intro h50
    have hne : (emailReputation w email).riskScore ≠ 0 := by omega
    have hbr : (checkEmailReputation w email).breaches
        = [{ source := "EmailReputation"
             name := "High Risk Email Pattern"
             domain := orElse (emailDomain w email) "Unknown"
             breachDate := w.todayIso
             description := "Email matches multiple high-risk patterns"
             dataClasses := ["email", "pattern_analysis"]
             isVerified := false
             isFabricated := some false
             isSensitive := some false
             isRetired := some false
             isSpamList := some false }] := by
      simp [checkEmailReputation, h50]
    have h30 := calculateBreachRiskScore_synthetic w (orElse (emailDomain w email) "Unknown")
      breachDay hiso hparse hyear
    have hbreaches : (emailVerdict w email).breaches = (checkEmailReputation w email).breaches := by
      simp only [emailVerdict, assembleEmailVerdict, List.foldl_cons, List.foldl_nil,
        collectStep, hn, hbr, List.nil_append]
      rfl
    have hscore : (emailVerdict w email).riskScore
        = min (30 + (emailReputation w email).riskScore) 100 := by
      have hrs : (checkEmailReputation w email).riskScore
          = some (emailReputation w email).riskScore := rfl
      simp only [emailVerdict, assembleEmailVerdict, List.foldl_cons, List.foldl_nil,
        collectStep, hn, hbr, hfirst, hrs, List.nil_append, ne_eq, hne, not_false_eq_true,
        if_true, h30]
      congr 1
      omega
    have h80 : 80 ≤ (emailVerdict w email).riskScore := by
      rw [hscore]
      omega
    refine ⟨hbreaches, ?_, ?_, hscore, h80, ?_⟩
    · have : (emailVerdict w email).totalBreaches = (emailVerdict w email).breaches.length := rfl
      rw [this, hbreaches, hbr]
      rfl
    · rw [hbreaches, hbr]
      exact h30
    · have hl : (emailVerdict w email).riskLevel
          = determineBreachRiskLevel (emailVerdict w email).riskScore :=
        assembleEmailVerdict_level w email _
      rw [hl]
      unfold determineBreachRiskLevel
      have : ((emailVerdict w email).riskScore : Int) ≥ 80 := by exact_mod_cast h80
      simp [this]
  · intro hlt
    have hbr : (checkEmailReputation w email).breaches = [] := by
      have : ¬ (emailReputation w email).riskScore ≥ 50 := by omega
      simp [checkEmailReputation, this]
    have hrs : (checkEmailReputation w email).riskScore
        = some (emailReputation w email).riskScore := rfl
    have hbreaches : (emailVerdict w email).breaches = [] := by
      simp only [emailVerdict, assembleEmailVerdict, List.foldl_cons, List.foldl_nil,
        collectStep, hn, hbr, List.nil_append]
      rfl
    have hscore : (emailVerdict w email).riskScore = (emailReputation w email).riskScore := by
      have hz : calculateBreachRiskScore w.parseDate w.today (removeDuplicateBreaches []) = 0 :=
        rfl
      simp only [emailVerdict, assembleEmailVerdict, List.foldl_cons, List.foldl_nil,
        collectStep, hn, hbr, hfirst, hrs, List.nil_append, hz]
      by_cases h0 : (emailReputation w email).riskScore = 0
      · simp [h0]
      · simp only [ne_eq, h0, not_false_eq_true, if_true]
        omega
    refine ⟨hbreaches, hscore, ?_⟩
    have hl : (emailVerdict w email).riskLevel
        = determineBreachRiskLevel (emailVerdict w email).riskScore :=
      assembleEmailVerdict_level w email _
    rw [hl, hscore]
    unfold determineBreachRiskLevel
    have h80 : ¬ ((emailReputation w email).riskScore : Int) ≥ 80 := by omega
    have h60 : ¬ ((emailReputation w email).riskScore : Int) ≥ 60 := by omega
    by_cases h40 : ((emailReputation w email).riskScore : Int) ≥ 40
    · simp [h80, h60, h40]
    · by_cases h20 : ((emailReputation w email).riskScore : Int) ≥ 20
      · simp [h80, h60, h40, h20]
      · simp [h80, h60, h40, h20]

/-- C28, at `login@mailinator.com` checked without a RapidAPI key: the
reputation score is 50 and the verdict is `critical` with score 80. -/
theorem checkEmailBreach_synthetic_breach_witness :
    isValidEmail "login@mailinator.com" = true ∧
      (emailReputation unconfiguredWorld "login@mailinator.com").riskScore = 50 ∧
      (emailVerdict unconfiguredWorld "login@mailinator.com").riskScore
        = min (30 + (emailReputation unconfiguredWorld "login@mailinator.com").riskScore) 100 ∧
      (emailVerdict unconfiguredWorld "login@mailinator.com").riskLevel = "critical" :=
  ⟨by decide, by decide,
    ((checkEmailBreach_synthetic_breach unconfiguredWorld "login@mailinator.com" ⟨2024, 12, 31⟩
      (by decide) (by decide) (by decide) (by decide) (by decide)).2.2.1 (by decide)).2.2.2.1,
    ((checkEmailBreach_synthetic_breach unconfiguredWorld "login@mailinator.com" ⟨2024, 12, 31⟩
      (by decide) (by decide) (by decide) (by decide) (by decide)).2.2.1
      (by decide)).2.2.2.2.2⟩

end CyberSpace
